import Mathlib

/-!
Verification development for the gse game-state codec.

The definitions below are a shallow embedding of the C++ sources:
data_buffer_interface.cpp, half_float.cpp, gs_serializer.cpp,
gs_deserializer.cpp, gs_decoder.cpp and gs_encoder.cpp.  Machine
integers are modelled as Nat; every C++ bit operation is rendered
arithmetically (x & 2^n - 1 becomes x % 2^n, x >> n becomes x / 2^n,
a | b with disjoint bit fields becomes a + b), and each such line
carries the original C++ expression in a comment.  Octet sequences are
List Nat with every element below 256.  Fallible operations return
Except String, carrying the exception text of the source.
-/

namespace GSE

/-- size_t addition: wraps modulo 2^64 (used where the C++ adds two
std::size_t values whose sum may overflow). -/
def addSizeT (a b : Nat) : Nat := (a + b) % 0x10000000000000000

/-- size_t subtraction: wraps modulo 2^64 (used where the C++
subtracts std::size_t values that may underflow); correct for
arguments below 2^64. -/
def subSizeT (a b : Nat) : Nat :=
  (a + 0x10000000000000000 - b) % 0x10000000000000000

/-- Big-endian octets of a 16-bit value, as appended by
DataBufferInterface::AppendValue(std::uint16_t) (htons + memcpy). -/
def u16be (x : Nat) : List Nat := [x / 0x100 % 0x100, x % 0x100]

/-- Big-endian octets of a 32-bit value, as appended by
DataBufferInterface::AppendValue(std::uint32_t) (htonl + memcpy). -/
def u32be (x : Nat) : List Nat :=
  [x / 0x1000000 % 0x100, x / 0x10000 % 0x100, x / 0x100 % 0x100, x % 0x100]

/-- Big-endian octets of a 64-bit value.
DataBufferInterface::AppendValue(std::uint64_t) appends the high
32 bits ((value >> 32) & 0xffffffff) then the low 32 bits. -/
def u64be (x : Nat) : List Nat :=
  u32be (x / 0x100000000 % 0x100000000) ++ u32be (x % 0x100000000)

/-- Value of a big-endian octet string (network byte order decode,
as produced by the GetValue / ReadValue overloads). -/
def beVal (l : List Nat) : Nat := l.foldl (fun a x => a * 0x100 + x) 0

/-- FloatToHalfFloat from half_float.cpp, on the 32-bit pattern of the
input float (std::memcpy of the float into bits).  Returns the 16-bit
half-float pattern. -/
def FloatToHalfFloat (bits : Nat) : Nat :=
  -- sign_bit = (bits & 0x8000'0000) >> 16
  let sign_bit := bits / 0x80000000 % 2 * 0x8000
  -- exponent = (bits & 0x7f80'0000) >> 23
  let exponent := bits / 0x800000 % 0x100
  -- mantissa = (bits & 0x007f'ffff) >> 13
  let mantissa := bits % 0x800000 / 0x2000
  if exponent ≠ 0xff then
    if 113 ≤ exponent ∧ exponent ≤ 142 then
      -- h = sign_bit | ((exponent - 112) << 10) | mantissa
      -- (the three fields occupy disjoint bit ranges)
      let h := sign_bit + (exponent - 112) * 0x400 + mantissa
      -- if (bits & 0x0000'1000) h++  (increment wraps as std::uint16_t)
      if bits / 0x1000 % 2 = 1 then (h + 1) % 0x10000 else h
    else if exponent = 0 then
      sign_bit
    else if exponent ≤ 112 then
      -- mantissa = (mantissa | 0x0000'0400) >> (113 - exponent);
      -- mantissa < 0x400 here, so the or sets a disjoint bit
      sign_bit + (mantissa + 0x400) / 2 ^ (113 - exponent)
    else
      -- h = sign_bit | inf_value
      sign_bit + 0x7c00
  else
    -- if (!(bits & 0x007f'ffff)) infinity else canonical quiet NaN
    if bits % 0x800000 = 0 then sign_bit + 0x7c00 else sign_bit + 0x7e00

/-- HalfFloatToFloat from half_float.cpp, on the 16-bit half-float
pattern.  Returns the 32-bit pattern of the resulting float. -/
def HalfFloatToFloat (h : Nat) : Nat :=
  -- sign_bit = (bits & 0x8000) << 16
  let sign_bit := h / 0x8000 % 2 * 0x80000000
  -- exponent = (bits & 0x7c00) >> 10
  let exponent := h / 0x400 % 0x20
  -- mantissa = (bits & 0x03ff) << 13
  let mantissa := h % 0x400 * 0x2000
  if exponent ≠ 0x1f then
    if exponent ≠ 0 then
      -- bits = sign_bit | ((exponent + 112) << 23) | mantissa
      sign_bit + (exponent + 112) * 0x800000 + mantissa
    else if mantissa = 0 then
      sign_bit
    else
      -- m = bits & 0x03ff, then a four step binary search for the
      -- most significant bit position b of the 10-bit mantissa
      let m0 := h % 0x400
      let b0 := 0
      let b1 := if m0 ≥ 0x100 then b0 + 8 else b0
      let m1 := if m0 ≥ 0x100 then m0 / 0x100 else m0
      let b2 := if m1 ≥ 0x10 then b1 + 4 else b1
      let m2 := if m1 ≥ 0x10 then m1 / 0x10 else m1
      let b3 := if m2 ≥ 0x4 then b2 + 2 else b2
      let m3 := if m2 ≥ 0x4 then m2 / 0x4 else m2
      let b := if m3 ≥ 0x2 then b3 + 1 else b3
      -- mantissa = (mantissa << (10 - b)) & 0x007f'ffff
      let mantissa' := mantissa * 2 ^ (10 - b) % 0x800000
      -- exponent = 113 - (10 - b)
      let exponent' := 113 - (10 - b)
      -- bits = sign_bit | (exponent << 23) | mantissa
      sign_bit + exponent' * 0x800000 + mantissa'
  else
    -- infinity for zero mantissa, canonical quiet NaN otherwise
    if h % 0x400 = 0 then sign_bit + 0x7f800000 else sign_bit + 0x7fc00000

/-!
Serializer (gs_serializer.cpp).  Each Write overload appends octets to
the data buffer when one is present and returns the octet count; with
a null buffer nothing is stored and the same count is returned.  The
embedding splits the two modes of each overload: writeX gives the
octets appended in buffer mode, sizeX gives the count returned (which
is also the size-only result).  Integer arguments are the bit patterns
of the corresponding C++ values (signed types two's complement).
-/

/-- Octets appended by Serializer::Write(Uint8): AppendValue(value). -/
def writeUint8 (v : Nat) : List Nat := [v % 0x100]

/-- Count returned by Serializer::Write(Uint8): sizeof(Uint8). -/
def sizeUint8 : Nat := 1

/-- Octets appended by Serializer::Write(Uint16): AppendValue(value). -/
def writeUint16 (v : Nat) : List Nat := u16be v

/-- Count returned by Serializer::Write(Uint16): sizeof(Uint16). -/
def sizeUint16 : Nat := 2

/-- Octets appended by Serializer::Write(Uint32): AppendValue(value). -/
def writeUint32 (v : Nat) : List Nat := u32be v

/-- Count returned by Serializer::Write(Uint32): sizeof(Uint32). -/
def sizeUint32 : Nat := 4

/-- Octets appended by Serializer::Write(Uint64): AppendValue(value). -/
def writeUint64 (v : Nat) : List Nat := u64be v

/-- Count returned by Serializer::Write(Uint64): sizeof(Uint64). -/
def sizeUint64 : Nat := 8

/-- Octets appended by Serializer::Write(Int8):
AppendValue(static_cast of value to Uint8); the argument is the 8-bit
two's-complement pattern, which the cast preserves. -/
def writeInt8 (v : Nat) : List Nat := [v % 0x100]

/-- Count returned by Serializer::Write(Int8): sizeof(Int8). -/
def sizeInt8 : Nat := 1

/-- Octets appended by Serializer::Write(Int16) (pattern cast). -/
def writeInt16 (v : Nat) : List Nat := u16be v

/-- Count returned by Serializer::Write(Int16): sizeof(Int16). -/
def sizeInt16 : Nat := 2

/-- Octets appended by Serializer::Write(Int32) (pattern cast). -/
def writeInt32 (v : Nat) : List Nat := u32be v

/-- Count returned by Serializer::Write(Int32): sizeof(Int32). -/
def sizeInt32 : Nat := 4

/-- Octets appended by Serializer::Write(Int64) (pattern cast). -/
def writeInt64 (v : Nat) : List Nat := u64be v

/-- Count returned by Serializer::Write(Int64): sizeof(Int64). -/
def sizeInt64 : Nat := 8

/-- Octets appended by Serializer::Write(VarUint), for v below 2^64.
Branch [a]: value <= 0x7f appends the casted octet.
Branch [b]: value <= 0x3fff appends uint16 (value | 0x8000); the or
sets bit 15, disjoint from value, hence + 0x8000.
Branch [c]: value <= 0x1fffff: i = value | 0x00c0'0000 (disjoint,
hence + 0xc00000), appends uint8 (i >> 16) then uint16 (i & 0xffff).
Branch [d]: value <= 0xffffffff appends 0xE1 then the uint32 value.
Branch [e]: otherwise appends 0xE2 then the uint64 value. -/
def writeVarUint (v : Nat) : List Nat :=
  if v ≤ 0x7f then
    [v % 0x100]
  else if v ≤ 0x3fff then
    u16be (v + 0x8000)
  else if v ≤ 0x1fffff then
    [(v + 0xc00000) / 0x10000 % 0x100] ++ u16be ((v + 0xc00000) % 0x10000)
  else if v ≤ 0xffffffff then
    [0xE1] ++ u32be v
  else
    [0xE2] ++ u64be v

/-- Count returned by Serializer::Write(VarUint). -/
def sizeVarUint (v : Nat) : Nat :=
  if v ≤ 0x7f then 1
  else if v ≤ 0x3fff then 2
  else if v ≤ 0x1fffff then 3
  else if v ≤ 0xffffffff then 5
  else 9

/-- Octets appended by Serializer::Write(VarInt), on the 64-bit
two's-complement pattern u of the value.
Branch [a] condition: (u & 0xffff'ffff'ffff'ffc0) equals that mask or
0, rendered with u / 0x40 * 0x40; appends uint8 (u & 0x7f).
Branch [b]: mask 0xffff'ffff'ffff'e000; appends
uint16 ((u & 0x3fff) | 0x8000) (disjoint or, hence + 0x8000).
Branch [c]: mask 0xffff'ffff'fff0'0000; i = (u & 0x1fffff) | 0xc00000,
appends uint8 (i >> 16) then uint16 (i & 0xffff).
Branch [d]: mask 0xffff'ffff'8000'0000; appends 0xE1 then
uint32 (u & 0xffff'ffff).
Branch [e]: otherwise appends 0xE2 then the uint64 pattern. -/
def writeVarInt (u : Nat) : List Nat :=
  if u / 0x40 * 0x40 = 0xffffffffffffffc0 ∨ u / 0x40 * 0x40 = 0 then
    [u % 0x80 % 0x100]
  else if u / 0x2000 * 0x2000 = 0xffffffffffffe000 ∨
          u / 0x2000 * 0x2000 = 0 then
    u16be (u % 0x4000 + 0x8000)
  else if u / 0x100000 * 0x100000 = 0xfffffffffff00000 ∨
          u / 0x100000 * 0x100000 = 0 then
    [(u % 0x200000 + 0xc00000) / 0x10000 % 0x100] ++
      u16be ((u % 0x200000 + 0xc00000) % 0x10000)
  else if u / 0x80000000 * 0x80000000 = 0xffffffff80000000 ∨
          u / 0x80000000 * 0x80000000 = 0 then
    [0xE1] ++ u32be (u % 0x100000000)
  else
    [0xE2] ++ u64be u

/-- Count returned by Serializer::Write(VarInt). -/
def sizeVarInt (u : Nat) : Nat :=
  if u / 0x40 * 0x40 = 0xffffffffffffffc0 ∨ u / 0x40 * 0x40 = 0 then 1
  else if u / 0x2000 * 0x2000 = 0xffffffffffffe000 ∨
          u / 0x2000 * 0x2000 = 0 then 2
  else if u / 0x100000 * 0x100000 = 0xfffffffffff00000 ∨
          u / 0x100000 * 0x100000 = 0 then 3
  else if u / 0x80000000 * 0x80000000 = 0xffffffff80000000 ∨
          u / 0x80000000 * 0x80000000 = 0 then 5
  else 9

/-- Octets appended by Serializer::Write(Float16):
AppendValue(FloatToHalfFloat(value.value)); the argument is the 32-bit
pattern of the in-memory float. -/
def writeFloat16 (p : Nat) : List Nat := u16be (FloatToHalfFloat p)

/-- Count returned by Serializer::Write(Float16): sizeof(uint16_t). -/
def sizeFloat16 : Nat := 2

/-- Octets appended by Serializer::Write(Float32): AppendValue(value)
copies the IEEE-754 bit pattern and appends it as a uint32. -/
def writeFloat32 (p : Nat) : List Nat := u32be p

/-- Count returned by Serializer::Write(Float32): sizeof(uint32_t). -/
def sizeFloat32 : Nat := 4

/-- Octets appended by Serializer::Write(Float64): AppendValue(value)
copies the IEEE-754 bit pattern and appends it as a uint64. -/
def writeFloat64 (p : Nat) : List Nat := u64be p

/-- Count returned by Serializer::Write(Float64): sizeof(uint64_t). -/
def sizeFloat64 : Nat := 8

/-- Octets appended by Serializer::Write(Boolean): a single octet,
1 for true, 0 for false. -/
def writeBoolean (v : Bool) : List Nat := if v then [1] else [0]

/-- Count returned by Serializer::Write(Boolean): sizeof(uint8_t). -/
def sizeBoolean : Nat := 1

/-- Octets appended by Serializer::Write(String): the length as a
VarUint, then the raw content octets. -/
def writeString (s : List Nat) : List Nat := writeVarUint s.length ++ s

/-- Count returned by Serializer::Write(String): VarUint length octets
plus the content length. -/
def sizeString (s : List Nat) : Nat := sizeVarUint s.length + s.length

/-- Octets appended by Serializer::Write(Blob): the octet count as a
VarUint, then the raw octets. -/
def writeBlob (b : List Nat) : List Nat := writeVarUint b.length ++ b

/-- Count returned by Serializer::Write(Blob). -/
def sizeBlob (b : List Nat) : Nat := sizeVarUint b.length + b.length

/-!
Deserializer (gs_deserializer.cpp) over the read cursor of a data
buffer.  RBuf models the readable region of a DataBuffer: data holds
the first data_length octets and pos is the read_length cursor.  Every
Read returns the value, the octet count it reports, and the advanced
buffer; buffer exhaustion raises the DataBufferException text.
-/

/-- Read view of a data buffer: the data region and the read cursor
(read_length). -/
structure RBuf where
  data : List Nat
  pos : Nat
deriving DecidableEq, Repr

/-- DataBufferInterface::ReadValue(unsigned char *, length): a length
of 0 is a no-op; otherwise requires read_length + length within the
data length, then yields the octets and advances the cursor. -/
def RBuf.rdBytes (b : RBuf) (n : Nat) : Except String (List Nat × RBuf) :=
  if n = 0 then .ok ([], b)
  else if addSizeT b.pos n > b.data.length then
    .error "Attempt to read beyond the end of the data"
  else .ok ((b.data.drop b.pos).take n, ⟨b.data, addSizeT b.pos n⟩)

/-- DataBufferInterface::AdvanceReadLength(count): requires
read_length + count (size_t sum, wrapping) within the data length. -/
def RBuf.advanceRead (b : RBuf) (n : Nat) : Except String RBuf :=
  if addSizeT b.pos n > b.data.length then
    .error "Attempt to advance read length beyond data length"
  else .ok ⟨b.data, addSizeT b.pos n⟩

/-- Deserializer::Read(Uint8): one octet. -/
def readUint8 (b : RBuf) : Except String (Nat × Nat × RBuf) := do
  let (l, b') ← b.rdBytes 1
  return (beVal l, 1, b')

/-- Deserializer::Read(Uint16): two octets, network byte order. -/
def readUint16 (b : RBuf) : Except String (Nat × Nat × RBuf) := do
  let (l, b') ← b.rdBytes 2
  return (beVal l, 2, b')

/-- Deserializer::Read(Uint32): four octets, network byte order. -/
def readUint32 (b : RBuf) : Except String (Nat × Nat × RBuf) := do
  let (l, b') ← b.rdBytes 4
  return (beVal l, 4, b')

/-- Deserializer::Read(Uint64): eight octets; the buffer reads the
high 32 bits then the low 32 bits, which is the big-endian value. -/
def readUint64 (b : RBuf) : Except String (Nat × Nat × RBuf) := do
  let (l, b') ← b.rdBytes 8
  return (beVal l, 8, b')

/-- Deserializer::Read(Int8): the octet is placed in the signed value
by pattern (reinterpret_cast); the result is the 8-bit pattern. -/
def readInt8 (b : RBuf) : Except String (Nat × Nat × RBuf) := readUint8 b

/-- Deserializer::Read(Int16) (pattern). -/
def readInt16 (b : RBuf) : Except String (Nat × Nat × RBuf) := readUint16 b

/-- Deserializer::Read(Int32) (pattern). -/
def readInt32 (b : RBuf) : Except String (Nat × Nat × RBuf) := readUint32 b

/-- Deserializer::Read(Int64) (pattern). -/
def readInt64 (b : RBuf) : Except String (Nat × Nat × RBuf) := readUint64 b

/-- Deserializer::Read(VarUint).  Inspects the first octet:
top bit 0 gives the 1-octet form (value = octet & 0x7f);
(octet & 0xc0) == 0x80 gives the 2-octet form, low bits octet & 0x3f
then value = (value << 8) | next octet;
(octet & 0xe0) == 0xc0 gives the 3-octet form, low bits octet & 0x1f
then value = (value << 16) | next uint16;
octet 0xE1 gives the 5-octet form (uint32 follows);
octet 0xE2 gives the 9-octet form (uint64 follows);
anything else raises the DeserializerException. -/
def readVarUint (b : RBuf) : Except String (Nat × Nat × RBuf) := do
  let (l, b1) ← b.rdBytes 1
  let octet := beVal l
  -- (octet & 0b1000'0000) == 0
  if octet / 0x80 % 2 = 0 then
    -- value = octet & 0b0111'1111
    return (octet % 0x80, 1, b1)
  -- (octet & 0b1100'0000) == 0b1000'0000
  else if octet / 0x40 % 4 = 2 then
    let (l2, b2) ← b1.rdBytes 1
    -- value = ((octet & 0b0011'1111) << 8) | octet2
    return (octet % 0x40 * 0x100 + beVal l2, 2, b2)
  -- (octet & 0b1110'0000) == 0b1100'0000
  else if octet / 0x20 % 8 = 6 then
    let (l2, b2) ← b1.rdBytes 2
    -- value = ((octet & 0b0001'1111) << 16) | lower_bits
    return (octet % 0x20 * 0x10000 + beVal l2, 3, b2)
  else if octet = 0xE1 then
    let (l2, b2) ← b1.rdBytes 4
    return (beVal l2, 5, b2)
  else if octet = 0xE2 then
    let (l2, b2) ← b1.rdBytes 8
    return (beVal l2, 9, b2)
  else
    throw "Invalid VarUint in the data buffer"

/-- Deserializer::Read(VarInt).  Same shapes as VarUint; each form
sign-extends from its payload width by or-ing the matching high mask
into the 64-bit pattern (the or is disjoint from the low bits, hence
rendered as addition), and the 2- and 3-octet forms then shift the
partial value left (wrapping as int64) before or-ing the low octets. -/
def readVarInt (b : RBuf) : Except String (Nat × Nat × RBuf) := do
  let (l, b1) ← b.rdBytes 1
  let octet := beVal l
  if octet / 0x80 % 2 = 0 then
    -- value = octet & 0x7f, then
    -- if (octet & 0b0100'0000) value |= 0xffff'ffff'ffff'ff80
    let v0 := octet % 0x80
    let v := if octet / 0x40 % 2 = 1 then v0 + 0xffffffffffffff80 else v0
    return (v, 1, b1)
  else if octet / 0x40 % 4 = 2 then
    -- value = octet & 0x3f, then
    -- if (octet & 0b0010'0000) value |= 0xffff'ffff'ffff'ffc0
    let v0 := octet % 0x40
    let v1 := if octet / 0x20 % 2 = 1 then v0 + 0xffffffffffffffc0 else v0
    let (l2, b2) ← b1.rdBytes 1
    -- value = (value << 8) | octet2   (int64 shift wraps mod 2^64)
    return (v1 * 0x100 % 0x10000000000000000 + beVal l2, 2, b2)
  else if octet / 0x20 % 8 = 6 then
    -- value = octet & 0x1f, then
    -- if (octet & 0b0001'0000) value |= 0xffff'ffff'ffff'ffe0
    let v0 := octet % 0x20
    let v1 := if octet / 0x10 % 2 = 1 then v0 + 0xffffffffffffffe0 else v0
    let (l2, b2) ← b1.rdBytes 2
    -- value = (value << 16) | lower_bits
    return (v1 * 0x10000 % 0x10000000000000000 + beVal l2, 3, b2)
  else if octet = 0xE1 then
    let (l2, b2) ← b1.rdBytes 4
    let lower := beVal l2
    -- if (lower_bits & 0x8000'0000) value |= 0xffff'ffff'0000'0000
    let v := if lower / 0x80000000 % 2 = 1 then
               lower + 0xffffffff00000000 else lower
    return (v, 5, b2)
  else if octet = 0xE2 then
    let (l2, b2) ← b1.rdBytes 8
    return (beVal l2, 9, b2)
  else
    throw "Invalid VarInt in the data buffer"

/-- Deserializer::Read(Float16): reads the 16-bit half float and
converts with HalfFloatToFloat; the stored value is the 32-bit float
pattern. -/
def readFloat16 (b : RBuf) : Except String (Nat × Nat × RBuf) := do
  let (l, b') ← b.rdBytes 2
  return (HalfFloatToFloat (beVal l), 2, b')

/-- Deserializer::Read(Float32): the 32-bit pattern. -/
def readFloat32 (b : RBuf) : Except String (Nat × Nat × RBuf) := readUint32 b

/-- Deserializer::Read(Float64): the 64-bit pattern. -/
def readFloat64 (b : RBuf) : Except String (Nat × Nat × RBuf) := readUint64 b

/-- Deserializer::Read(Boolean): one octet into the bool object; zero
is false and the writer only ever stores 0 or 1. -/
def readBoolean (b : RBuf) : Except String (Bool × Nat × RBuf) := do
  let (l, b') ← b.rdBytes 1
  return (beVal l ≠ 0, 1, b')

/-- Deserializer::Read(Blob): a VarUint octet count then that many raw
octets. -/
def readBlob (b : RBuf) : Except String (List Nat × Nat × RBuf) := do
  let (len, n, b1) ← readVarUint b
  let (l, b2) ← b1.rdBytes len
  return (l, n + l.length, b2)

/-!
Domain object types (gs_types.h).  Float32 fields hold 32-bit IEEE-754
patterns; Float16 fields hold the 32-bit pattern of the in-memory
float; VarUint and integer fields hold the machine value (pattern).
Field declaration order follows the header even where the wire order
differs (Loc2).
-/

/-- Loc1 from gs_types.h. -/
structure Loc1 where
  x : Nat
  y : Nat
  z : Nat
deriving DecidableEq, Repr

/-- Loc2 from gs_types.h; the in-memory declaration order is vy, vx,
vz, while the codec reads and writes vx, vy, vz. -/
structure Loc2 where
  x : Nat
  y : Nat
  z : Nat
  vy : Nat
  vx : Nat
  vz : Nat
deriving DecidableEq, Repr

/-- Norm1 from gs_types.h. -/
structure Norm1 where
  x : Nat
  y : Nat
  z : Nat
deriving DecidableEq, Repr

/-- TextureUV1 from gs_types.h. -/
structure TextureUV1 where
  u : Nat
  v : Nat
deriving DecidableEq, Repr

/-- Rot1 from gs_types.h. -/
structure Rot1 where
  i : Nat
  j : Nat
  k : Nat
deriving DecidableEq, Repr

/-- Rot2 from gs_types.h. -/
structure Rot2 where
  si : Nat
  sj : Nat
  sk : Nat
  ei : Nat
  ej : Nat
  ek : Nat
deriving DecidableEq, Repr

/-- Transform1 from gs_types.h. -/
structure Transform1 where
  tx : Nat
  ty : Nat
  tz : Nat
deriving DecidableEq, Repr

/-- Object1 from gs_types.h (id, time, position, rotation, scale,
active, optional parent). -/
structure Object1 where
  id : Nat
  time : Nat
  position : Loc1
  rotation : Rot1
  scale : Loc1
  active : Bool
  parent : Option Nat
deriving DecidableEq, Repr

/-- HeadIPD1 from gs_types.h. -/
structure HeadIPD1 where
  ipd : Nat
deriving DecidableEq, Repr

/-- Head1 from gs_types.h. -/
structure Head1 where
  id : Nat
  time : Nat
  location : Loc2
  rotation : Rot2
  ipd : Option HeadIPD1
deriving DecidableEq, Repr

/-- Mesh1 from gs_types.h. -/
structure Mesh1 where
  id : Nat
  vertices : List Loc1
  normals : List Norm1
  textures : List TextureUV1
  triangles : List Nat
deriving DecidableEq, Repr

/-- Hand1 from gs_types.h. -/
structure Hand1 where
  id : Nat
  time : Nat
  left : Bool
  location : Loc2
  rotation : Rot2
deriving DecidableEq, Repr

/-- Thumb from gs_types.h. -/
structure Thumb where
  tip : Transform1
  ip : Transform1
  mcp : Transform1
  cmc : Transform1
deriving DecidableEq, Repr

/-- Finger from gs_types.h. -/
structure Finger where
  tip : Transform1
  dip : Transform1
  pip : Transform1
  mcp : Transform1
  cmc : Transform1
deriving DecidableEq, Repr

/-- Hand2 from gs_types.h. -/
structure Hand2 where
  id : Nat
  time : Nat
  left : Bool
  location : Loc2
  rotation : Rot2
  wrist : Transform1
  thumb : Thumb
  index : Finger
  middle : Finger
  ring : Finger
  pinky : Finger
deriving DecidableEq, Repr

/-- UnknownObject from gs_types.h: raw tag plus blob. -/
structure UnknownObject where
  tag : Nat
  data : List Nat
deriving DecidableEq, Repr

/-- Tag enumeration from gs_types.h. -/
inductive Tag where
  | Invalid
  | Head1
  | Hand1
  | Object1
  | Mesh1
  | Hand2
  | HeadIPD1
deriving DecidableEq, Repr

/-- Raw tag value assigned in Encoder::Serialize(Tag) (also the enum
values of gs_types.h); Invalid maps to 0. -/
def tagValue : Tag → Nat
  | .Invalid => 0x00
  | .Head1 => 0x01
  | .Hand1 => 0x02
  | .Object1 => 0x03
  | .Mesh1 => 0x8000
  | .Hand2 => 0x8001
  | .HeadIPD1 => 0x8002

/-- The GSObject variant from gs_types.h. -/
inductive GSObject where
  | head1 (v : Head1)
  | hand1 (v : Hand1)
  | object1 (v : Object1)
  | mesh1 (v : Mesh1)
  | hand2 (v : Hand2)
  | headIPD1 (v : HeadIPD1)
  | unknown (v : UnknownObject)
deriving DecidableEq, Repr

/-!
Encoder (gs_encoder.cpp).  Encode first sums the field sizes through
the size-only buffer (the xSize functions), then, when the buffer has
room, appends the tag, the body length as a VarUint, and the fields in
the same order (the xBody functions give the appended body octets).
The insufficient-space branch appends nothing and returns a zero
count; encodeX below gives the octets appended in the emitting case.
-/

/-- Encoder::Serialize(Tag): maps the enum to its raw value, raises
the EncoderException on a zero raw value, else writes it as a
VarUint. -/
def serializeTag (t : Tag) : Except String (List Nat) :=
  if tagValue t = 0 then .error "Invalid object tag value"
  else .ok (writeVarUint (tagValue t))

/-- Octets of a nonzero tag (the value Encoder::Serialize(Tag) writes
for the literal tags used by the Encode overloads, none of which is
Invalid). -/
def tagOctets (t : Tag) : List Nat := writeVarUint (tagValue t)

/-- Size returned by Encoder::Serialize(Tag) for a nonzero tag. -/
def tagSize (t : Tag) : Nat := sizeVarUint (tagValue t)

/-- Body octets of Loc1 (Encoder::Serialize(Loc1): x, y, z). -/
def loc1Body (v : Loc1) : List Nat :=
  writeFloat32 v.x ++ writeFloat32 v.y ++ writeFloat32 v.z

/-- Size-only sum for Loc1. -/
def loc1Size (_ : Loc1) : Nat := sizeFloat32 + sizeFloat32 + sizeFloat32

/-- Body octets of Loc2 (Encoder::Serialize(Loc2): x, y, z then vx,
vy, vz in wire order). -/
def loc2Body (v : Loc2) : List Nat :=
  writeFloat32 v.x ++ writeFloat32 v.y ++ writeFloat32 v.z ++
    writeFloat16 v.vx ++ writeFloat16 v.vy ++ writeFloat16 v.vz

/-- Size-only sum for Loc2. -/
def loc2Size (_ : Loc2) : Nat :=
  sizeFloat32 + sizeFloat32 + sizeFloat32 +
    sizeFloat16 + sizeFloat16 + sizeFloat16

/-- Body octets of Norm1 (x, y, z as Float16). -/
def norm1Body (v : Norm1) : List Nat :=
  writeFloat16 v.x ++ writeFloat16 v.y ++ writeFloat16 v.z

/-- Size-only sum for Norm1. -/
def norm1Size (_ : Norm1) : Nat := sizeFloat16 + sizeFloat16 + sizeFloat16

/-- Body octets of TextureUV1 (u, v as VarUint). -/
def textureUV1Body (v : TextureUV1) : List Nat :=
  writeVarUint v.u ++ writeVarUint v.v

/-- Size-only sum for TextureUV1. -/
def textureUV1Size (v : TextureUV1) : Nat :=
  sizeVarUint v.u + sizeVarUint v.v

/-- Body octets of Rot1 (i, j, k as Float16). -/
def rot1Body (v : Rot1) : List Nat :=
  writeFloat16 v.i ++ writeFloat16 v.j ++ writeFloat16 v.k

/-- Size-only sum for Rot1. -/
def rot1Size (_ : Rot1) : Nat := sizeFloat16 + sizeFloat16 + sizeFloat16

/-- Body octets of Rot2 (si, sj, sk, ei, ej, ek as Float16). -/
def rot2Body (v : Rot2) : List Nat :=
  writeFloat16 v.si ++ writeFloat16 v.sj ++ writeFloat16 v.sk ++
    writeFloat16 v.ei ++ writeFloat16 v.ej ++ writeFloat16 v.ek

/-- Size-only sum for Rot2. -/
def rot2Size (_ : Rot2) : Nat :=
  sizeFloat16 + sizeFloat16 + sizeFloat16 +
    sizeFloat16 + sizeFloat16 + sizeFloat16

/-- Body octets of Transform1 (tx, ty, tz as Float16). -/
def transform1Body (v : Transform1) : List Nat :=
  writeFloat16 v.tx ++ writeFloat16 v.ty ++ writeFloat16 v.tz

/-- Size-only sum for Transform1. -/
def transform1Size (_ : Transform1) : Nat :=
  sizeFloat16 + sizeFloat16 + sizeFloat16

/-- Body octets of Thumb (tip, ip, mcp, cmc). -/
def thumbBody (v : Thumb) : List Nat :=
  transform1Body v.tip ++ transform1Body v.ip ++
    transform1Body v.mcp ++ transform1Body v.cmc

/-- Size-only sum for Thumb. -/
def thumbSize (v : Thumb) : Nat :=
  transform1Size v.tip + transform1Size v.ip +
    transform1Size v.mcp + transform1Size v.cmc

/-- Body octets of Finger (tip, dip, pip, mcp, cmc). -/
def fingerBody (v : Finger) : List Nat :=
  transform1Body v.tip ++ transform1Body v.dip ++
    transform1Body v.pip ++ transform1Body v.mcp ++ transform1Body v.cmc

/-- Size-only sum for Finger. -/
def fingerSize (v : Finger) : Nat :=
  transform1Size v.tip + transform1Size v.dip +
    transform1Size v.pip + transform1Size v.mcp + transform1Size v.cmc

/-- Octets of a vector (Encoder::Serialize over std::vector): element
count as VarUint then each element. -/
def vecBody (f : α → List Nat) (l : List α) : List Nat :=
  writeVarUint l.length ++ (l.map f).flatten

/-- Size-only sum for a vector. -/
def vecSize (g : α → Nat) (l : List α) : Nat :=
  sizeVarUint l.length + (l.map g).sum

/-- Encoder::Serialize(HeadIPD1): a nested full record, tag 0x8002
plus body length plus the Float16 body. -/
def headIPD1Record (v : HeadIPD1) : List Nat :=
  tagOctets .HeadIPD1 ++ writeVarUint sizeFloat16 ++ writeFloat16 v.ipd

/-- Size of the nested HeadIPD1 record as summed through the size-only
buffer. -/
def headIPD1RecordSize (_ : HeadIPD1) : Nat :=
  tagSize .HeadIPD1 + sizeVarUint sizeFloat16 + sizeFloat16

/-- Body size of Object1 computed by Encoder::Encode(Object1) through
the size-only buffer: id, time, position, rotation, scale, and the
parent VarUint when present.  Note the time field is included. -/
def object1BodySize (v : Object1) : Nat :=
  sizeVarUint v.id + sizeUint16 + loc1Size v.position +
    rot1Size v.rotation + loc1Size v.scale +
    (match v.parent with
     | some p => sizeVarUint p
     | none => 0)

/-- Body octets appended by Encoder::Encode(Object1): id, time,
position, rotation, scale, optional parent.  Note the time field is
written. -/
def object1Body (v : Object1) : List Nat :=
  writeVarUint v.id ++ writeUint16 v.time ++ loc1Body v.position ++
    rot1Body v.rotation ++ loc1Body v.scale ++
    (match v.parent with
     | some p => writeVarUint p
     | none => [])

/-- Record octets appended by Encoder::Encode(Object1) when the buffer
has room: tag, body length as VarUint, body. -/
def encodeObject1 (v : Object1) : List Nat :=
  tagOctets .Object1 ++ writeVarUint (object1BodySize v) ++ object1Body v

/-- Body size of Head1 computed by Encoder::Encode(Head1): id, time,
location, rotation, and the nested HeadIPD1 record when present. -/
def head1BodySize (v : Head1) : Nat :=
  sizeVarUint v.id + sizeUint16 + loc2Size v.location +
    rot2Size v.rotation +
    (match v.ipd with
     | some i => headIPD1RecordSize i
     | none => 0)

/-- Body octets appended by Encoder::Encode(Head1). -/
def head1Body (v : Head1) : List Nat :=
  writeVarUint v.id ++ writeUint16 v.time ++ loc2Body v.location ++
    rot2Body v.rotation ++
    (match v.ipd with
     | some i => headIPD1Record i
     | none => [])

/-- Record octets appended by Encoder::Encode(Head1) when the buffer
has room. -/
def encodeHead1 (v : Head1) : List Nat :=
  tagOctets .Head1 ++ writeVarUint (head1BodySize v) ++ head1Body v

/-- Body size of Hand1 computed by Encoder::Encode(Hand1). -/
def hand1BodySize (v : Hand1) : Nat :=
  sizeVarUint v.id + sizeUint16 + sizeBoolean + loc2Size v.location +
    rot2Size v.rotation

/-- Body octets appended by Encoder::Encode(Hand1). -/
def hand1Body (v : Hand1) : List Nat :=
  writeVarUint v.id ++ writeUint16 v.time ++ writeBoolean v.left ++
    loc2Body v.location ++ rot2Body v.rotation

/-- Record octets appended by Encoder::Encode(Hand1) when the buffer
has room. -/
def encodeHand1 (v : Hand1) : List Nat :=
  tagOctets .Hand1 ++ writeVarUint (hand1BodySize v) ++ hand1Body v

/-- Body size of Hand2 computed by Encoder::Encode(Hand2). -/
def hand2BodySize (v : Hand2) : Nat :=
  sizeVarUint v.id + sizeUint16 + sizeBoolean + loc2Size v.location +
    rot2Size v.rotation + transform1Size v.wrist + thumbSize v.thumb +
    fingerSize v.index + fingerSize v.middle + fingerSize v.ring +
    fingerSize v.pinky

/-- Body octets appended by Encoder::Encode(Hand2). -/
def hand2Body (v : Hand2) : List Nat :=
  writeVarUint v.id ++ writeUint16 v.time ++ writeBoolean v.left ++
    loc2Body v.location ++ rot2Body v.rotation ++
    transform1Body v.wrist ++ thumbBody v.thumb ++ fingerBody v.index ++
    fingerBody v.middle ++ fingerBody v.ring ++ fingerBody v.pinky

/-- Record octets appended by Encoder::Encode(Hand2) when the buffer
has room. -/
def encodeHand2 (v : Hand2) : List Nat :=
  tagOctets .Hand2 ++ writeVarUint (hand2BodySize v) ++ hand2Body v

/-- Body size of Mesh1 computed by Encoder::Encode(Mesh1). -/
def mesh1BodySize (v : Mesh1) : Nat :=
  sizeVarUint v.id + vecSize loc1Size v.vertices +
    vecSize norm1Size v.normals + vecSize textureUV1Size v.textures +
    vecSize sizeVarUint v.triangles

/-- Body octets appended by Encoder::Encode(Mesh1). -/
def mesh1Body (v : Mesh1) : List Nat :=
  writeVarUint v.id ++ vecBody loc1Body v.vertices ++
    vecBody norm1Body v.normals ++ vecBody textureUV1Body v.textures ++
    vecBody writeVarUint v.triangles

/-- Record octets appended by Encoder::Encode(Mesh1) when the buffer
has room. -/
def encodeMesh1 (v : Mesh1) : List Nat :=
  tagOctets .Mesh1 ++ writeVarUint (mesh1BodySize v) ++ mesh1Body v

/-- Record octets appended by a standalone HeadIPD1 (through the
GSObject dispatch the HeadIPD1 variant serializes the same nested
record shape). -/
def encodeHeadIPD1 (v : HeadIPD1) : List Nat := headIPD1Record v

/-- Octets appended by Encoder::Encode(UnknownObject): the raw VarUint
tag then the data as a Blob.  There is no zero-tag check on this
path. -/
def encodeUnknownObject (v : UnknownObject) : List Nat :=
  writeVarUint v.tag ++ writeBlob v.data

/-!
Decoder (gs_decoder.cpp).  Each Decode reads the VarUint body length
(the octet count of that length field is length_field), the required
fields, optionally decodes a trailer, skips remaining octets through
AdvanceReadLength, and raises on overrun.  Every function returns the
decoded value, the read_length it reports, and the advanced buffer.
The skip amounts reproduce the source expressions exactly, including
the two places (Head1 and Object1) where AdvanceReadLength is given
length.value - read_length rather than the remaining octet count.
-/

/-- Decoder::Deserialize(Loc1): x, y, z as Float32. -/
def deserializeLoc1 (b : RBuf) : Except String (Loc1 × Nat × RBuf) := do
  let (x, n1, b1) ← readFloat32 b
  let (y, n2, b2) ← readFloat32 b1
  let (z, n3, b3) ← readFloat32 b2
  return (⟨x, y, z⟩, n1 + n2 + n3, b3)

/-- Decoder::Deserialize(Loc2): x, y, z as Float32 then vx, vy, vz as
Float16 (wire order). -/
def deserializeLoc2 (b : RBuf) : Except String (Loc2 × Nat × RBuf) := do
  let (x, n1, b1) ← readFloat32 b
  let (y, n2, b2) ← readFloat32 b1
  let (z, n3, b3) ← readFloat32 b2
  let (vx, n4, b4) ← readFloat16 b3
  let (vy, n5, b5) ← readFloat16 b4
  let (vz, n6, b6) ← readFloat16 b5
  return (⟨x, y, z, vy, vx, vz⟩, n1 + n2 + n3 + n4 + n5 + n6, b6)

/-- Decoder::Deserialize(Norm1): x, y, z as Float16. -/
def deserializeNorm1 (b : RBuf) : Except String (Norm1 × Nat × RBuf) := do
  let (x, n1, b1) ← readFloat16 b
  let (y, n2, b2) ← readFloat16 b1
  let (z, n3, b3) ← readFloat16 b2
  return (⟨x, y, z⟩, n1 + n2 + n3, b3)

/-- Decoder::Deserialize(TextureUV1): u, v as VarUint. -/
def deserializeTextureUV1 (b : RBuf) :
    Except String (TextureUV1 × Nat × RBuf) := do
  let (u, n1, b1) ← readVarUint b
  let (v, n2, b2) ← readVarUint b1
  return (⟨u, v⟩, n1 + n2, b2)

/-- Decoder::Deserialize(Rot1): i, j, k as Float16. -/
def deserializeRot1 (b : RBuf) : Except String (Rot1 × Nat × RBuf) := do
  let (i, n1, b1) ← readFloat16 b
  let (j, n2, b2) ← readFloat16 b1
  let (k, n3, b3) ← readFloat16 b2
  return (⟨i, j, k⟩, n1 + n2 + n3, b3)

/-- Decoder::Deserialize(Rot2): si, sj, sk, ei, ej, ek as Float16. -/
def deserializeRot2 (b : RBuf) : Except String (Rot2 × Nat × RBuf) := do
  let (si, n1, b1) ← readFloat16 b
  let (sj, n2, b2) ← readFloat16 b1
  let (sk, n3, b3) ← readFloat16 b2
  let (ei, n4, b4) ← readFloat16 b3
  let (ej, n5, b5) ← readFloat16 b4
  let (ek, n6, b6) ← readFloat16 b5
  return (⟨si, sj, sk, ei, ej, ek⟩, n1 + n2 + n3 + n4 + n5 + n6, b6)

/-- Decoder::Deserialize(Transform1): tx, ty, tz as Float16. -/
def deserializeTransform1 (b : RBuf) :
    Except String (Transform1 × Nat × RBuf) := do
  let (tx, n1, b1) ← readFloat16 b
  let (ty, n2, b2) ← readFloat16 b1
  let (tz, n3, b3) ← readFloat16 b2
  return (⟨tx, ty, tz⟩, n1 + n2 + n3, b3)

/-- Decoder::Deserialize(Thumb): tip, ip, mcp, cmc. -/
def deserializeThumb (b : RBuf) : Except String (Thumb × Nat × RBuf) := do
  let (tip, n1, b1) ← deserializeTransform1 b
  let (ip, n2, b2) ← deserializeTransform1 b1
  let (mcp, n3, b3) ← deserializeTransform1 b2
  let (cmc, n4, b4) ← deserializeTransform1 b3
  return (⟨tip, ip, mcp, cmc⟩, n1 + n2 + n3 + n4, b4)

/-- Decoder::Deserialize(Finger): tip, dip, pip, mcp, cmc. -/
def deserializeFinger (b : RBuf) : Except String (Finger × Nat × RBuf) := do
  let (tip, n1, b1) ← deserializeTransform1 b
  let (dip, n2, b2) ← deserializeTransform1 b1
  let (pip, n3, b3) ← deserializeTransform1 b2
  let (mcp, n4, b4) ← deserializeTransform1 b3
  let (cmc, n5, b5) ← deserializeTransform1 b4
  return (⟨tip, dip, pip, mcp, cmc⟩, n1 + n2 + n3 + n4 + n5, b5)

/-- Element loop of the vector Deserialize: decode n elements in
order, summing the octet counts. -/
def readVecElems (f : RBuf → Except String (α × Nat × RBuf)) :
    Nat → RBuf → Except String (List α × Nat × RBuf)
  | 0, b => .ok ([], 0, b)
  | n + 1, b => do
    let (x, c1, b1) ← f b
    let (xs, c2, b2) ← readVecElems f n b1
    return (x :: xs, c1 + c2, b2)

/-- Decoder::Deserialize over std::vector: the expected element count
as VarUint (early return when zero), then each element. -/
def readVec (f : RBuf → Except String (α × Nat × RBuf)) (b : RBuf) :
    Except String (List α × Nat × RBuf) := do
  let (n, c0, b1) ← readVarUint b
  if n = 0 then return ([], c0, b1)
  let (l, c, b2) ← readVecElems f n b1
  return (l, c0 + c, b2)

/-- Decoder::Deserialize(Tag): reads the raw VarUint, raises on raw
value 0, maps the recognized values and leaves anything else
Invalid.  Returns the mapped tag, the raw value and the octet
count. -/
def deserializeTag (b : RBuf) : Except String (Tag × Nat × Nat × RBuf) := do
  let (raw, n, b1) ← readVarUint b
  if raw = 0x00 then throw "Invalid object tag in data buffer"
  let t : Tag :=
    if raw = 0x01 then .Head1
    else if raw = 0x02 then .Hand1
    else if raw = 0x03 then .Object1
    else if raw = 0x8000 then .Mesh1
    else if raw = 0x8001 then .Hand2
    else if raw = 0x8002 then .HeadIPD1
    else .Invalid
  return (t, raw, n, b1)

/-- Decoder::Decode(UnknownObject): the balance of the record is read
as a Blob into data; the tag was stored by the caller. -/
def decodeUnknownObject (raw : Nat) (b : RBuf) :
    Except String (UnknownObject × Nat × RBuf) := do
  let (d, n, b1) ← readBlob b
  return (⟨raw, d⟩, n, b1)

/-- Decoder::Decode(Hand1): length, required fields, skip of trailing
octets, overrun check. -/
def decodeHand1 (b : RBuf) : Except String (Hand1 × Nat × RBuf) := do
  let (len, lf, b1) ← readVarUint b
  if len = 0 then throw "Invalid object length"
  let (id, n1, b2) ← readVarUint b1
  let (time, n2, b3) ← readUint16 b2
  let (left, n3, b4) ← readBoolean b3
  let (loc, n4, b5) ← deserializeLoc2 b4
  let (rot, n5, b6) ← deserializeRot2 b5
  let rl := lf + n1 + n2 + n3 + n4 + n5
  let (rl2, b7) ←
    if subSizeT rl lf < len then do
      -- AdvanceReadLength(length.value - (read_length - length_field))
      let b7 ← b6.advanceRead (subSizeT len (subSizeT rl lf))
      pure (addSizeT rl (subSizeT len (subSizeT rl lf)), b7)
    else pure (rl, b6)
  if subSizeT rl2 lf > len then throw "Encoded object length error"
  return (⟨id, time, left, loc, rot⟩, rl2, b7)

/-- Decoder::Decode(Hand2). -/
def decodeHand2 (b : RBuf) : Except String (Hand2 × Nat × RBuf) := do
  let (len, lf, b1) ← readVarUint b
  if len = 0 then throw "Invalid object length"
  let (id, n1, b2) ← readVarUint b1
  let (time, n2, b3) ← readUint16 b2
  let (left, n3, b4) ← readBoolean b3
  let (loc, n4, b5) ← deserializeLoc2 b4
  let (rot, n5, b6) ← deserializeRot2 b5
  let (wrist, n6, b7) ← deserializeTransform1 b6
  let (thumb, n7, b8) ← deserializeThumb b7
  let (index, n8, b9) ← deserializeFinger b8
  let (middle, n9, b10) ← deserializeFinger b9
  let (ring, n10, b11) ← deserializeFinger b10
  let (pinky, n11, b12) ← deserializeFinger b11
  let rl := lf + n1 + n2 + n3 + n4 + n5 + n6 + n7 + n8 + n9 + n10 + n11
  let (rl2, b13) ←
    if subSizeT rl lf < len then do
      let b13 ← b12.advanceRead (subSizeT len (subSizeT rl lf))
      pure (addSizeT rl (subSizeT len (subSizeT rl lf)), b13)
    else pure (rl, b12)
  if subSizeT rl2 lf > len then throw "Encoded object length error"
  return (⟨id, time, left, loc, rot, wrist, thumb, index, middle,
           ring, pinky⟩, rl2, b13)

/-- Decoder::Decode(Mesh1). -/
def decodeMesh1 (b : RBuf) : Except String (Mesh1 × Nat × RBuf) := do
  let (len, lf, b1) ← readVarUint b
  if len = 0 then throw "Invalid object length"
  let (id, n1, b2) ← readVarUint b1
  let (vertices, n2, b3) ← readVec deserializeLoc1 b2
  let (normals, n3, b4) ← readVec deserializeNorm1 b3
  let (textures, n4, b5) ← readVec deserializeTextureUV1 b4
  let (triangles, n5, b6) ← readVec readVarUint b5
  let rl := lf + n1 + n2 + n3 + n4 + n5
  let (rl2, b7) ←
    if subSizeT rl lf < len then do
      let b7 ← b6.advanceRead (subSizeT len (subSizeT rl lf))
      pure (addSizeT rl (subSizeT len (subSizeT rl lf)), b7)
    else pure (rl, b6)
  if subSizeT rl2 lf > len then throw "Encoded object length error"
  return (⟨id, vertices, normals, textures, triangles⟩, rl2, b7)

/-- Decoder::Decode(HeadIPD1). -/
def decodeHeadIPD1 (b : RBuf) : Except String (HeadIPD1 × Nat × RBuf) := do
  let (len, lf, b1) ← readVarUint b
  if len = 0 then throw "Invalid object length"
  let (ipd, n1, b2) ← readFloat16 b1
  let rl := lf + n1
  let (rl2, b3) ←
    if subSizeT rl lf < len then do
      let b3 ← b2.advanceRead (subSizeT len (subSizeT rl lf))
      pure (addSizeT rl (subSizeT len (subSizeT rl lf)), b3)
    else pure (rl, b2)
  if subSizeT rl2 lf > len then throw "Encoded object length error"
  return (⟨ipd⟩, rl2, b3)

/-- Decoder::Decode(Object1): length, required fields (including
time), then when octets remain a bare VarUint parent, then the skip of
any remaining octets.  The skip calls
AdvanceReadLength(length.value - read_length), the source expression,
which is short of the remaining count by length_field octets. -/
def decodeObject1 (b : RBuf) : Except String (Object1 × Nat × RBuf) := do
  let (len, lf, b1) ← readVarUint b
  if len = 0 then throw "Invalid object length"
  let (id, n1, b2) ← readVarUint b1
  let (time, n2, b3) ← readUint16 b2
  let (position, n3, b4) ← deserializeLoc1 b3
  let (rotation, n4, b5) ← deserializeRot1 b4
  let (scale, n5, b6) ← deserializeLoc1 b5
  let rl := lf + n1 + n2 + n3 + n4 + n5
  let (parent, rl2, b7) ←
    if subSizeT rl lf < len then do
      let (par, n6, b7) ← readVarUint b6
      let rl' := rl + n6
      if subSizeT rl' lf < len then do
        -- AdvanceReadLength(length.value - read_length)
        let b8 ← b7.advanceRead (subSizeT len rl')
        pure (some par, addSizeT rl' (subSizeT len (subSizeT rl' lf)), b8)
      else pure (some par, rl', b7)
    else pure (none, rl, b6)
  if subSizeT rl2 lf > len then throw "Encoded object length error"
  return (⟨id, time, position, rotation, scale, false, parent⟩, rl2, b7)

/-- Body of Decoder::Decode(Head1), shared between decodeGSObject and
decodeHead1: length, required fields, then when octets remain a nested
object (decoded through the given nested-object decoder) that must be
a HeadIPD1, then the skip of any remaining octets.  The skip calls
AdvanceReadLength(length.value - read_length), the source expression,
which is short of the remaining count by length_field octets. -/
def decodeHead1Body (decObj : RBuf → Except String (GSObject × Nat × RBuf))
    (b : RBuf) : Except String (Head1 × Nat × RBuf) := do
  let (len, lf, b1) ← readVarUint b
  if len = 0 then throw "Invalid object length"
  let (id, n1, b2) ← readVarUint b1
  let (time, n2, b3) ← readUint16 b2
  let (loc, n3, b4) ← deserializeLoc2 b3
  let (rot, n4, b5) ← deserializeRot2 b4
  let rl := lf + n1 + n2 + n3 + n4
  let (ipd, rl2, b6) ←
    if subSizeT rl lf < len then do
      let (obj, n5, b6) ← decObj b5
      match obj with
      | .headIPD1 i =>
        let rl' := rl + n5
        if subSizeT rl' lf < len then do
          -- AdvanceReadLength(length.value - read_length)
          let b7 ← b6.advanceRead (subSizeT len rl')
          pure (some i, addSizeT rl' (subSizeT len (subSizeT rl' lf)), b7)
        else pure (some i, rl', b6)
      | _ => throw "Unexpected optional object type found decoding Head1"
    else pure (none, rl, b5)
  if subSizeT rl2 lf > len then throw "Encoded object length error"
  return (⟨id, time, loc, rot, ipd⟩, rl2, b6)

/-- Decoder::Decode(GSObject): reads the tag and dispatches; the fuel
argument bounds the recursion through the Head1 optional trailer (the
Head1 branch decodes its nested object with one unit of fuel less). -/
def decodeGSObject : Nat → RBuf → Except String (GSObject × Nat × RBuf)
  | 0, _ => throw "recursion fuel exhausted"
  | fuel + 1, b => do
    let (t, raw, n, b1) ← deserializeTag b
    match t with
    | .Invalid => do
      -- the raw value 0 re-check in Decode(GSObject) is unreachable
      -- because Deserialize(Tag) has already raised on 0
      if raw = 0 then throw "Cannot decode an invalid (0) tag type"
      let (u, c, b2) ← decodeUnknownObject raw b1
      return (.unknown u, n + c, b2)
    | .Head1 => do
      let (v, c, b2) ← decodeHead1Body (decodeGSObject fuel) b1
      return (.head1 v, n + c, b2)
    | .Hand1 => do
      let (v, c, b2) ← decodeHand1 b1
      return (.hand1 v, n + c, b2)
    | .Object1 => do
      let (v, c, b2) ← decodeObject1 b1
      return (.object1 v, n + c, b2)
    | .Mesh1 => do
      let (v, c, b2) ← decodeMesh1 b1
      return (.mesh1 v, n + c, b2)
    | .Hand2 => do
      let (v, c, b2) ← decodeHand2 b1
      return (.hand2 v, n + c, b2)
    | .HeadIPD1 => do
      let (v, c, b2) ← decodeHeadIPD1 b1
      return (.headIPD1 v, n + c, b2)

/-- Decoder::Decode(Head1): decodeHead1Body with the nested object
decoded by Decode(GSObject) at the given recursion-depth bound. -/
def decodeHead1 (fuel : Nat) (b : RBuf) :
    Except String (Head1 × Nat × RBuf) :=
  decodeHead1Body (decodeGSObject fuel) b

/-!
DataBufferInterface (data_buffer_interface.cpp): the counter state and
the operations the spec names.  The storage is modelled as the octet
list store together with the hasBuffer flag (nullptr when false); the
three counters are buffer_size, data_length and read_length.  Failing
operations raise the DataBufferException and leave the state
unchanged.
-/

/-- Counter-and-storage state of a DataBufferInterface. -/
structure DataBufSt where
  hasBuffer : Bool
  bufferSize : Nat
  dataLength : Nat
  readLength : Nat
  store : List Nat
deriving DecidableEq, Repr

/-- The counter invariant of the spec: read position within the data
length, data length within the capacity. -/
def DataBufSt.inv (s : DataBufSt) : Prop :=
  s.readLength ≤ s.dataLength ∧ s.dataLength ≤ s.bufferSize

instance (s : DataBufSt) : Decidable s.inv :=
  inferInstanceAs (Decidable (_ ≤ _ ∧ _ ≤ _))

/-- Overwrite octets of the store starting at the given offset. -/
def storeWrite (l : List Nat) (off : Nat) (v : List Nat) : List Nat :=
  l.take off ++ v ++ l.drop (off + v.length)

/-- DataBufferInterface::AppendValue(const unsigned char *, length):
raises when data_length + length exceeds buffer_size, else writes at
data_length and advances data_length. -/
def DataBufSt.appendBytes (s : DataBufSt) (v : List Nat) :
    Except String DataBufSt :=
  -- v holds the octets themselves, so its length is a real octet
  -- count and data_length + length cannot wrap
  if s.dataLength + v.length > s.bufferSize then
    .error "Attempt to access memory beyond the end of the buffer"
  else
    .ok { s with dataLength := s.dataLength + v.length,
                 store := storeWrite s.store s.dataLength v }

/-- DataBufferInterface::ReadValue(unsigned char *, length): length 0
is a no-op; raises when read_length + length exceeds data_length, else
yields the octets and advances read_length. -/
def DataBufSt.readBytes (s : DataBufSt) (n : Nat) :
    Except String (List Nat × DataBufSt) :=
  if n = 0 then .ok ([], s)
  else if s.readLength + n > s.dataLength then
    .error "Attempt to read beyond the end of the data"
  else
    .ok ((s.store.drop s.readLength).take n,
         { s with readLength := s.readLength + n })

/-- DataBufferInterface::GetValue(unsigned char *, offset, length): a
peek; raises when offset + length exceeds data_length; no state
change. -/
def DataBufSt.getBytes (s : DataBufSt) (off n : Nat) :
    Except String (List Nat) :=
  if off + n > s.dataLength then
    .error "Attempted memory access beyond the end of the buffer"
  else .ok ((s.store.drop off).take n)

/-- DataBufferInterface::SetValue(const unsigned char *, offset,
length): raises when offset + length exceeds buffer_size, else writes
without touching any counter. -/
def DataBufSt.setBytes (s : DataBufSt) (off : Nat) (v : List Nat) :
    Except String DataBufSt :=
  if off + v.length > s.bufferSize then
    .error "Attempt to access memory beyond the end of the buffer"
  else .ok { s with store := storeWrite s.store off v }

/-- DataBufferInterface::AdvanceReadLength(count). -/
def DataBufSt.advanceReadLength (s : DataBufSt) (n : Nat) :
    Except String DataBufSt :=
  if addSizeT s.readLength n > s.dataLength then
    .error "Attempt to advance read length beyond data length"
  else .ok { s with readLength := addSizeT s.readLength n }

/-- DataBufferInterface::ResetReadLength. -/
def DataBufSt.resetReadLength (s : DataBufSt) : DataBufSt :=
  { s with readLength := 0 }

/-- DataBufferInterface::SetDataLength(length): raises when the length
exceeds buffer_size; sets data_length and clamps read_length down to
it. -/
def DataBufSt.setDataLength (s : DataBufSt) (n : Nat) :
    Except String DataBufSt :=
  if n > s.bufferSize then
    .error "Data length larger than the buffer size"
  else .ok { s with dataLength := n, readLength := min n s.readLength }

/-- DataBufferInterface::TakeBufferOwnership: returns the storage and
resets buffer, owns_buffer, buffer_size and data_length; read_length
is left as it was. -/
def DataBufSt.takeBufferOwnership (s : DataBufSt) :
    List Nat × DataBufSt :=
  (s.store,
   { hasBuffer := false, bufferSize := 0, dataLength := 0,
     readLength := s.readLength, store := [] })

/-!
Value semantics of the floating point patterns, used to state the
nearest-value property of the half-float conversion.  Magnitudes are
measured in units of 2^-149 (the smallest positive binary32
subnormal), so every finite binary32 and binary16 magnitude is a
natural number; the sign bit is handled separately since both
conversions pass it through unchanged.
-/

/-- Magnitude of a finite binary32 pattern in units of 2^-149: a
normal pattern with biased exponent e and mantissa m denotes
(2^23 + m) * 2^(e - 150), a subnormal denotes m * 2^-149. -/
def mag32 (p : Nat) : Nat :=
  let e := p / 0x800000 % 0x100
  let m := p % 0x800000
  if e = 0 then m else (0x800000 + m) * 2 ^ (e - 1)

/-- Magnitude of a finite binary16 pattern in units of 2^-149: a
normal pattern with biased exponent e and mantissa m denotes
(2^10 + m) * 2^(e - 25), a subnormal denotes m * 2^-24. -/
def mag16 (h : Nat) : Nat :=
  let e := h / 0x400 % 0x20
  let m := h % 0x400
  if e = 0 then m * 2 ^ 125 else (0x400 + m) * 2 ^ (e + 124)

/-- Distance between two magnitudes. -/
def dist (a b : Nat) : Nat := max a b - min a b

/-!
Concrete records and octet strings used by the record-level
evaluations below.
-/

/-- An Object1 record: id 12, time 0x0500, position (1, 2, 3),
rotation (4, 5, 6), scale (7, 8, 9) (as bit patterns), active false,
no parent. -/
def object1Sample : Object1 :=
  ⟨12, 0x0500, ⟨0x3F800000, 0x40000000, 0x40400000⟩,
    ⟨0x40800000, 0x40A00000, 0x40C00000⟩,
    ⟨0x40E00000, 0x41000000, 0x41100000⟩, false, none⟩

/-- The record octets Encoder::Encode(Object1) appends for
object1Sample: tag 0x03, body length 0x21 = 33, id 0x0C, the two time
octets 0x05 0x00, then position, rotation (as half-floats) and
scale. -/
def object1SampleWire : List Nat :=
  [0x03, 0x21, 0x0C, 0x05, 0x00,
   0x3F, 0x80, 0x00, 0x00, 0x40, 0x00, 0x00, 0x00,
   0x40, 0x40, 0x00, 0x00,
   0x44, 0x00, 0x45, 0x00, 0x46, 0x00,
   0x40, 0xE0, 0x00, 0x00, 0x41, 0x00, 0x00, 0x00,
   0x41, 0x10, 0x00, 0x00]

/-- Head1 record octets (after the tag octet) with declared body
length 0x28 = 40: id 0, time 0x0500, zero location and rotation
(30 octets), a nested HeadIPD1 record (tag 0xC0 0x80 0x02, length 2,
half-float 0x42 0x48) and one spare octet 0xAA still inside the
declared body. -/
def head1SkipInput : List Nat :=
  [0x28, 0x00, 0x05, 0x00] ++ List.replicate 30 0 ++
    [0xC0, 0x80, 0x02, 0x02, 0x42, 0x48, 0xAA]

/-- Object1 record octets (after the tag octet) with declared body
length 0x23 = 35: id 27, time 0, zero position, rotation and scale
(30 octets), a parent VarUint 0x07 and one spare octet 0xBB still
inside the declared body. -/
def object1SkipInput : List Nat :=
  [0x23, 0x1B, 0x00, 0x00] ++ List.replicate 30 0 ++ [0x07, 0xBB]

/-!
Helper lemmas.  The monadic plumbing of Except is reduced through the
small rfl lemmas below, and every buffer read is evaluated through
rdBytes_ok, so that the write-then-read round trips of the primitive
codec follow by arithmetic.
-/

theorem ebind_ok (a : α) (f : α → Except String β) :
    (bind (Except.ok a) f : Except String β) = f a := rfl

theorem ebind_err (e : String) (f : α → Except String β) :
    (bind (Except.error e) f : Except String β) = .error e := rfl

theorem epure (a : α) : (pure a : Except String α) = .ok a := rfl

theorem ethrow (e : String) : (throw e : Except String α) = .error e := rfl

theorem rdBytes_ok (d : List Nat) (p n : Nat) (hn : ¬ n = 0)
    (hlt : p + n < 0x10000000000000000) (h : ¬ p + n > d.length) :
    RBuf.rdBytes ⟨d, p⟩ n = .ok ((d.drop p).take n, ⟨d, p + n⟩) := by
  unfold RBuf.rdBytes addSizeT
  rw [if_neg hn, Nat.mod_eq_of_lt hlt, if_neg h]

theorem readUint8_cons (o1 : Nat) (rest : List Nat) :
    readUint8 ⟨o1 :: rest, 0⟩ = .ok (o1, 1, ⟨o1 :: rest, 1⟩) := by
  unfold readUint8
  rw [rdBytes_ok _ _ _ (by decide) (by decide)
        (by simp only [List.length_cons]; omega), ebind_ok]
  simp only [List.drop_zero, List.take_succ_cons, List.take_zero, beVal,
    List.foldl_cons, List.foldl_nil, Nat.zero_mul, Nat.zero_add, epure]

theorem readUint16_cons (o1 o2 : Nat) (rest : List Nat) :
    readUint16 ⟨o1 :: o2 :: rest, 0⟩ =
      .ok (o1 * 0x100 + o2, 2, ⟨o1 :: o2 :: rest, 2⟩) := by
  unfold readUint16
  rw [rdBytes_ok _ _ _ (by decide) (by decide)
        (by simp only [List.length_cons]; omega), ebind_ok]
  simp only [List.drop_zero, List.take_succ_cons, List.take_zero, beVal,
    List.foldl_cons, List.foldl_nil, Nat.zero_mul, Nat.zero_add, epure]

theorem readUint32_cons (o1 o2 o3 o4 : Nat) (rest : List Nat) :
    readUint32 ⟨o1 :: o2 :: o3 :: o4 :: rest, 0⟩ =
      .ok (((o1 * 0x100 + o2) * 0x100 + o3) * 0x100 + o4, 4,
           ⟨o1 :: o2 :: o3 :: o4 :: rest, 4⟩) := by
  unfold readUint32
  rw [rdBytes_ok _ _ _ (by decide) (by decide)
        (by simp only [List.length_cons]; omega), ebind_ok]
  simp only [List.drop_zero, List.take_succ_cons, List.take_zero, beVal,
    List.foldl_cons, List.foldl_nil, Nat.zero_mul, Nat.zero_add, epure]

set_option maxRecDepth 8000 in
theorem readUint64_cons (o1 o2 o3 o4 o5 o6 o7 o8 : Nat) (rest : List Nat) :
    readUint64 ⟨o1 :: o2 :: o3 :: o4 :: o5 :: o6 :: o7 :: o8 :: rest, 0⟩ =
      .ok (((((((o1 * 0x100 + o2) * 0x100 + o3) * 0x100 + o4) * 0x100 + o5) *
            0x100 + o6) * 0x100 + o7) * 0x100 + o8, 8,
           ⟨o1 :: o2 :: o3 :: o4 :: o5 :: o6 :: o7 :: o8 :: rest, 8⟩) := by
  unfold readUint64
  rw [rdBytes_ok _ _ _ (by decide) (by decide)
        (by simp only [List.length_cons]; omega), ebind_ok]
  simp only [List.drop_zero, List.take_succ_cons, List.take_zero, beVal,
    List.foldl_cons, List.foldl_nil, Nat.zero_mul, Nat.zero_add, epure]

theorem readVarUint_one (o1 : Nat) (rest : List Nat)
    (hc1 : o1 / 0x80 % 2 = 0) :
    readVarUint ⟨o1 :: rest, 0⟩ = .ok (o1 % 0x80, 1, ⟨o1 :: rest, 1⟩) := by
  unfold readVarUint
  rw [rdBytes_ok _ _ _ (by decide) (by decide)
        (by simp only [List.length_cons]; omega), ebind_ok]
  simp only [List.drop_zero, List.take_succ_cons, List.take_zero, beVal,
    List.foldl_cons, List.foldl_nil, Nat.zero_mul, Nat.zero_add]
  rw [if_pos hc1]
  simp only [epure]

theorem readVarUint_two (o1 o2 : Nat) (rest : List Nat)
    (hc1 : ¬ o1 / 0x80 % 2 = 0) (hc2 : o1 / 0x40 % 4 = 2) :
    readVarUint ⟨o1 :: o2 :: rest, 0⟩ =
      .ok (o1 % 0x40 * 0x100 + o2, 2, ⟨o1 :: o2 :: rest, 2⟩) := by
  unfold readVarUint
  rw [rdBytes_ok _ _ _ (by decide) (by decide)
        (by simp only [List.length_cons]; omega), ebind_ok]
  simp only [List.drop_zero, List.take_succ_cons, List.take_zero, beVal,
    List.foldl_cons, List.foldl_nil, Nat.zero_mul, Nat.zero_add]
  rw [if_neg hc1, if_pos hc2,
    rdBytes_ok _ _ _ (by decide) (by decide)
      (by simp only [List.length_cons]; omega), ebind_ok]
  simp only [List.drop_succ_cons, List.drop_zero, List.take_succ_cons,
    List.take_zero, beVal, List.foldl_cons, List.foldl_nil,
    Nat.zero_mul, Nat.zero_add, epure]

theorem readVarUint_three (o1 o2 o3 : Nat) (rest : List Nat)
    (hc1 : ¬ o1 / 0x80 % 2 = 0) (hc2 : ¬ o1 / 0x40 % 4 = 2)
    (hc3 : o1 / 0x20 % 8 = 6) :
    readVarUint ⟨o1 :: o2 :: o3 :: rest, 0⟩ =
      .ok (o1 % 0x20 * 0x10000 + (o2 * 0x100 + o3), 3,
           ⟨o1 :: o2 :: o3 :: rest, 3⟩) := by
  unfold readVarUint
  rw [rdBytes_ok _ _ _ (by decide) (by decide)
        (by simp only [List.length_cons]; omega), ebind_ok]
  simp only [List.drop_zero, List.take_succ_cons, List.take_zero, beVal,
    List.foldl_cons, List.foldl_nil, Nat.zero_mul, Nat.zero_add]
  rw [if_neg hc1, if_neg hc2, if_pos hc3,
    rdBytes_ok _ _ _ (by decide) (by decide)
      (by simp only [List.length_cons]; omega), ebind_ok]
  simp only [List.drop_succ_cons, List.drop_zero, List.take_succ_cons,
    List.take_zero, beVal, List.foldl_cons, List.foldl_nil,
    Nat.zero_mul, Nat.zero_add, epure]

theorem readVarUint_five (o2 o3 o4 o5 : Nat) (rest : List Nat) :
    readVarUint ⟨0xE1 :: o2 :: o3 :: o4 :: o5 :: rest, 0⟩ =
      .ok (((o2 * 0x100 + o3) * 0x100 + o4) * 0x100 + o5, 5,
           ⟨0xE1 :: o2 :: o3 :: o4 :: o5 :: rest, 5⟩) := by
  unfold readVarUint
  rw [rdBytes_ok _ _ _ (by decide) (by decide)
        (by simp only [List.length_cons]; omega), ebind_ok]
  simp only [List.drop_zero, List.take_succ_cons, List.take_zero, beVal,
    List.foldl_cons, List.foldl_nil, Nat.zero_mul, Nat.zero_add]
  rw [if_neg (by decide), if_neg (by decide), if_neg (by decide),
    if_pos (by decide),
    rdBytes_ok _ _ _ (by decide) (by decide)
      (by simp only [List.length_cons]; omega), ebind_ok]
  simp only [List.drop_succ_cons, List.drop_zero, List.take_succ_cons,
    List.take_zero, beVal, List.foldl_cons, List.foldl_nil,
    Nat.zero_mul, Nat.zero_add, epure]

set_option maxRecDepth 8000 in
theorem readVarUint_nine (o2 o3 o4 o5 o6 o7 o8 o9 : Nat) (rest : List Nat) :
    readVarUint ⟨0xE2 :: o2 :: o3 :: o4 :: o5 :: o6 :: o7 :: o8 :: o9 ::
        rest, 0⟩ =
      .ok (((((((o2 * 0x100 + o3) * 0x100 + o4) * 0x100 + o5) * 0x100 + o6) *
            0x100 + o7) * 0x100 + o8) * 0x100 + o9, 9,
           ⟨0xE2 :: o2 :: o3 :: o4 :: o5 :: o6 :: o7 :: o8 :: o9 ::
             rest, 9⟩) := by
  unfold readVarUint
  rw [rdBytes_ok _ _ _ (by decide) (by decide)
        (by simp only [List.length_cons]; omega), ebind_ok]
  simp only [List.drop_zero, List.take_succ_cons, List.take_zero, beVal,
    List.foldl_cons, List.foldl_nil, Nat.zero_mul, Nat.zero_add]
  rw [if_neg (by decide), if_neg (by decide), if_neg (by decide),
    if_neg (by decide), if_pos (by decide),
    rdBytes_ok _ _ _ (by decide) (by decide)
      (by simp only [List.length_cons]; omega), ebind_ok]
  simp only [List.drop_succ_cons, List.drop_zero, List.take_succ_cons,
    List.take_zero, beVal, List.foldl_cons, List.foldl_nil,
    Nat.zero_mul, Nat.zero_add, epure]

theorem readVarInt_one (o1 : Nat) (rest : List Nat)
    (hc1 : o1 / 0x80 % 2 = 0) :
    readVarInt ⟨o1 :: rest, 0⟩ =
      .ok ((if o1 / 0x40 % 2 = 1 then o1 % 0x80 + 0xffffffffffffff80
            else o1 % 0x80), 1, ⟨o1 :: rest, 1⟩) := by
  unfold readVarInt
  rw [rdBytes_ok _ _ _ (by decide) (by decide)
        (by simp only [List.length_cons]; omega), ebind_ok]
  simp only [List.drop_zero, List.take_succ_cons, List.take_zero, beVal,
    List.foldl_cons, List.foldl_nil, Nat.zero_mul, Nat.zero_add]
  rw [if_pos hc1]
  simp only [epure]

theorem readVarInt_two (o1 o2 : Nat) (rest : List Nat)
    (hc1 : ¬ o1 / 0x80 % 2 = 0) (hc2 : o1 / 0x40 % 4 = 2) :
    readVarInt ⟨o1 :: o2 :: rest, 0⟩ =
      .ok ((if o1 / 0x20 % 2 = 1 then o1 % 0x40 + 0xffffffffffffffc0
            else o1 % 0x40) * 0x100 % 0x10000000000000000 + o2, 2,
           ⟨o1 :: o2 :: rest, 2⟩) := by
  unfold readVarInt
  rw [rdBytes_ok _ _ _ (by decide) (by decide)
        (by simp only [List.length_cons]; omega), ebind_ok]
  simp only [List.drop_zero, List.take_succ_cons, List.take_zero, beVal,
    List.foldl_cons, List.foldl_nil, Nat.zero_mul, Nat.zero_add]
  rw [if_neg hc1, if_pos hc2,
    rdBytes_ok _ _ _ (by decide) (by decide)
      (by simp only [List.length_cons]; omega), ebind_ok]
  simp only [List.drop_succ_cons, List.drop_zero, List.take_succ_cons,
    List.take_zero, beVal, List.foldl_cons, List.foldl_nil,
    Nat.zero_mul, Nat.zero_add, epure]

theorem readVarInt_three (o1 o2 o3 : Nat) (rest : List Nat)
    (hc1 : ¬ o1 / 0x80 % 2 = 0) (hc2 : ¬ o1 / 0x40 % 4 = 2)
    (hc3 : o1 / 0x20 % 8 = 6) :
    readVarInt ⟨o1 :: o2 :: o3 :: rest, 0⟩ =
      .ok ((if o1 / 0x10 % 2 = 1 then o1 % 0x20 + 0xffffffffffffffe0
            else o1 % 0x20) * 0x10000 % 0x10000000000000000 +
             (o2 * 0x100 + o3), 3, ⟨o1 :: o2 :: o3 :: rest, 3⟩) := by
  unfold readVarInt
  rw [rdBytes_ok _ _ _ (by decide) (by decide)
        (by simp only [List.length_cons]; omega), ebind_ok]
  simp only [List.drop_zero, List.take_succ_cons, List.take_zero, beVal,
    List.foldl_cons, List.foldl_nil, Nat.zero_mul, Nat.zero_add]
  rw [if_neg hc1, if_neg hc2, if_pos hc3,
    rdBytes_ok _ _ _ (by decide) (by decide)
      (by simp only [List.length_cons]; omega), ebind_ok]
  simp only [List.drop_succ_cons, List.drop_zero, List.take_succ_cons,
    List.take_zero, beVal, List.foldl_cons, List.foldl_nil,
    Nat.zero_mul, Nat.zero_add, epure]

theorem readVarInt_five (o2 o3 o4 o5 : Nat) (rest : List Nat) :
    readVarInt ⟨0xE1 :: o2 :: o3 :: o4 :: o5 :: rest, 0⟩ =
      .ok ((if (((o2 * 0x100 + o3) * 0x100 + o4) * 0x100 + o5) /
              0x80000000 % 2 = 1
            then (((o2 * 0x100 + o3) * 0x100 + o4) * 0x100 + o5) +
              0xffffffff00000000
            else ((o2 * 0x100 + o3) * 0x100 + o4) * 0x100 + o5), 5,
           ⟨0xE1 :: o2 :: o3 :: o4 :: o5 :: rest, 5⟩) := by
  have hl : (((0xE1 : Nat) :: o2 :: o3 :: o4 :: o5 :: rest).drop 1).take 4
      = [o2, o3, o4, o5] := rfl
  have hv : List.foldl (fun a x => a * 0x100 + x) 0 [o2, o3, o4, o5] =
      ((o2 * 0x100 + o3) * 0x100 + o4) * 0x100 + o5 := by
    simp only [List.foldl_cons, List.foldl_nil, Nat.zero_mul, Nat.zero_add]
  unfold readVarInt
  rw [rdBytes_ok _ _ _ (by decide) (by decide)
        (by simp only [List.length_cons]; omega), ebind_ok]
  simp only [List.drop_zero, List.take_succ_cons, List.take_zero, beVal,
    List.foldl_cons, List.foldl_nil, Nat.zero_mul, Nat.zero_add]
  rw [if_neg (by decide), if_neg (by decide), if_neg (by decide),
    if_pos (by decide),
    rdBytes_ok _ _ _ (by decide) (by decide)
      (by simp only [List.length_cons]; omega), ebind_ok]
  simp only []
  rw [hl, hv]
  norm_num [epure]

set_option maxRecDepth 8000 in
theorem readVarInt_nine (o2 o3 o4 o5 o6 o7 o8 o9 : Nat) (rest : List Nat) :
    readVarInt ⟨0xE2 :: o2 :: o3 :: o4 :: o5 :: o6 :: o7 :: o8 :: o9 ::
        rest, 0⟩ =
      .ok (((((((o2 * 0x100 + o3) * 0x100 + o4) * 0x100 + o5) * 0x100 + o6) *
            0x100 + o7) * 0x100 + o8) * 0x100 + o9, 9,
           ⟨0xE2 :: o2 :: o3 :: o4 :: o5 :: o6 :: o7 :: o8 :: o9 ::
             rest, 9⟩) := by
  unfold readVarInt
  rw [rdBytes_ok _ _ _ (by decide) (by decide)
        (by simp only [List.length_cons]; omega), ebind_ok]
  simp only [List.drop_zero, List.take_succ_cons, List.take_zero, beVal,
    List.foldl_cons, List.foldl_nil, Nat.zero_mul, Nat.zero_add]
  rw [if_neg (by decide), if_neg (by decide), if_neg (by decide),
    if_neg (by decide), if_pos (by decide),
    rdBytes_ok _ _ _ (by decide) (by decide)
      (by simp only [List.length_cons]; omega), ebind_ok]
  simp only [List.drop_succ_cons, List.drop_zero, List.take_succ_cons,
    List.take_zero, beVal, List.foldl_cons, List.foldl_nil,
    Nat.zero_mul, Nat.zero_add, epure]

theorem readUint8_writeUint8 (v : Nat) (h : v < 0x100) :
    readUint8 ⟨writeUint8 v, 0⟩ = .ok (v, sizeUint8, ⟨writeUint8 v, 1⟩) := by
  unfold writeUint8 sizeUint8
  rw [readUint8_cons]
  simp only [Except.ok.injEq, Prod.mk.injEq, RBuf.mk.injEq, and_true,
    true_and]
  omega

theorem readUint16_writeUint16 (v : Nat) (h : v < 0x10000) :
    readUint16 ⟨writeUint16 v, 0⟩ =
      .ok (v, sizeUint16, ⟨writeUint16 v, 2⟩) := by
  unfold writeUint16 sizeUint16 u16be
  rw [readUint16_cons]
  simp only [Except.ok.injEq, Prod.mk.injEq, RBuf.mk.injEq, and_true,
    true_and]
  omega

theorem readUint32_writeUint32 (v : Nat) (h : v < 0x100000000) :
    readUint32 ⟨writeUint32 v, 0⟩ =
      .ok (v, sizeUint32, ⟨writeUint32 v, 4⟩) := by
  unfold writeUint32 sizeUint32 u32be
  rw [readUint32_cons]
  simp only [Except.ok.injEq, Prod.mk.injEq, RBuf.mk.injEq, and_true,
    true_and]
  omega

theorem readUint64_writeUint64 (v : Nat) (h : v < 0x10000000000000000) :
    readUint64 ⟨writeUint64 v, 0⟩ =
      .ok (v, sizeUint64, ⟨writeUint64 v, 8⟩) := by
  unfold writeUint64 sizeUint64 u64be u32be
  simp only [List.cons_append, List.nil_append]
  rw [readUint64_cons]
  simp only [Except.ok.injEq, Prod.mk.injEq, RBuf.mk.injEq, and_true,
    true_and]
  omega

theorem readBoolean_writeBoolean (v : Bool) :
    readBoolean ⟨writeBoolean v, 0⟩ =
      .ok (v, sizeBoolean, ⟨writeBoolean v, 1⟩) := by
  cases v <;> rfl

theorem readVarUint_writeVarUint (v : Nat) (h : v < 0x10000000000000000) :
    readVarUint ⟨writeVarUint v, 0⟩ =
      .ok (v, sizeVarUint v, ⟨writeVarUint v, sizeVarUint v⟩) := by
  unfold writeVarUint sizeVarUint
  split_ifs with h1 h2 h3 h4
  · rw [readVarUint_one _ _ (by omega)]
    simp only [Except.ok.injEq, Prod.mk.injEq, RBuf.mk.injEq, and_true,
      true_and]
    omega
  · unfold u16be
    rw [readVarUint_two _ _ _ (by omega) (by omega)]
    simp only [Except.ok.injEq, Prod.mk.injEq, RBuf.mk.injEq, and_true,
      true_and]
    omega
  · unfold u16be
    simp only [List.cons_append, List.nil_append]
    rw [readVarUint_three _ _ _ _ (by omega) (by omega) (by omega)]
    simp only [Except.ok.injEq, Prod.mk.injEq, RBuf.mk.injEq, and_true,
      true_and]
    omega
  · unfold u32be
    simp only [List.cons_append, List.nil_append]
    rw [readVarUint_five]
    simp only [Except.ok.injEq, Prod.mk.injEq, RBuf.mk.injEq, and_true,
      true_and]
    omega
  · unfold u64be u32be
    simp only [List.cons_append, List.nil_append]
    rw [readVarUint_nine]
    simp only [Except.ok.injEq, Prod.mk.injEq, RBuf.mk.injEq, and_true,
      true_and]
    omega

theorem readVarInt_writeVarInt (u : Nat) (h : u < 0x10000000000000000) :
    readVarInt ⟨writeVarInt u, 0⟩ =
      .ok (u, sizeVarInt u, ⟨writeVarInt u, sizeVarInt u⟩) := by
  unfold writeVarInt sizeVarInt
  split_ifs with h1 h2 h3 h4
  · rw [readVarInt_one _ _ (by omega)]
    split_ifs with hs <;>
      (simp only [Except.ok.injEq, Prod.mk.injEq, RBuf.mk.injEq, and_true,
        true_and]
       omega)
  · unfold u16be
    rw [readVarInt_two _ _ _ (by omega) (by omega)]
    split_ifs with hs <;>
      (simp only [Except.ok.injEq, Prod.mk.injEq, RBuf.mk.injEq, and_true,
        true_and]
       omega)
  · unfold u16be
    simp only [List.cons_append, List.nil_append]
    rw [readVarInt_three _ _ _ _ (by omega) (by omega) (by omega)]
    split_ifs with hs <;>
      (simp only [Except.ok.injEq, Prod.mk.injEq, RBuf.mk.injEq, and_true,
        true_and]
       omega)
  · unfold u32be
    simp only [List.cons_append, List.nil_append]
    rw [readVarInt_five]
    split_ifs with hs <;>
      (simp only [Except.ok.injEq, Prod.mk.injEq, RBuf.mk.injEq, and_true,
        true_and]
       omega)
  · unfold u64be u32be
    simp only [List.cons_append, List.nil_append]
    rw [readVarInt_nine]
    simp only [Except.ok.injEq, Prod.mk.injEq, RBuf.mk.injEq, and_true,
      true_and]
    omega

theorem readFloat32_writeFloat32 (p : Nat) (h : p < 0x100000000) :
    readFloat32 ⟨writeFloat32 p, 0⟩ =
      .ok (p, sizeFloat32, ⟨writeFloat32 p, 4⟩) := by
  unfold readFloat32 writeFloat32 sizeFloat32 u32be
  rw [readUint32_cons]
  simp only [Except.ok.injEq, Prod.mk.injEq, RBuf.mk.injEq, and_true,
    true_and]
  omega

theorem readFloat64_writeFloat64 (p : Nat) (h : p < 0x10000000000000000) :
    readFloat64 ⟨writeFloat64 p, 0⟩ =
      .ok (p, sizeFloat64, ⟨writeFloat64 p, 8⟩) := by
  unfold readFloat64 writeFloat64 sizeFloat64 u64be u32be
  simp only [List.cons_append, List.nil_append]
  rw [readUint64_cons]
  simp only [Except.ok.injEq, Prod.mk.injEq, RBuf.mk.injEq, and_true,
    true_and]
  omega

/-!
Helper lemmas: the octet count returned by each Write equals the
octet count actually appended.
-/

theorem writeVarUint_length (v : Nat) :
    (writeVarUint v).length = sizeVarUint v := by
  unfold writeVarUint sizeVarUint u16be u64be u32be
  split_ifs <;> simp [u32be]

theorem writeVarInt_length (u : Nat) :
    (writeVarInt u).length = sizeVarInt u := by
  unfold writeVarInt sizeVarInt u16be u64be u32be
  split_ifs <;> simp [u32be]

theorem writeUint8_length (v : Nat) : (writeUint8 v).length = sizeUint8 := rfl

theorem writeUint16_length (v : Nat) :
    (writeUint16 v).length = sizeUint16 := rfl

theorem writeUint32_length (v : Nat) :
    (writeUint32 v).length = sizeUint32 := rfl

theorem writeUint64_length (v : Nat) :
    (writeUint64 v).length = sizeUint64 := rfl

theorem writeInt8_length (v : Nat) : (writeInt8 v).length = sizeInt8 := rfl

theorem writeInt16_length (v : Nat) : (writeInt16 v).length = sizeInt16 := rfl

theorem writeInt32_length (v : Nat) : (writeInt32 v).length = sizeInt32 := rfl

theorem writeInt64_length (v : Nat) : (writeInt64 v).length = sizeInt64 := rfl

theorem writeFloat16_length (p : Nat) :
    (writeFloat16 p).length = sizeFloat16 := rfl

theorem writeFloat32_length (p : Nat) :
    (writeFloat32 p).length = sizeFloat32 := rfl

theorem writeFloat64_length (p : Nat) :
    (writeFloat64 p).length = sizeFloat64 := rfl

theorem writeBoolean_length (v : Bool) :
    (writeBoolean v).length = sizeBoolean := by cases v <;> rfl

theorem writeString_length (s : List Nat) :
    (writeString s).length = sizeString s := by
  simp [writeString, sizeString, writeVarUint_length]

theorem writeBlob_length (b : List Nat) :
    (writeBlob b).length = sizeBlob b := by
  simp [writeBlob, sizeBlob, writeVarUint_length]

theorem vecBody_length (f : α → List Nat) (g : α → Nat) (l : List α)
    (h : ∀ a, (f a).length = g a) :
    (vecBody f l).length = vecSize g l := by
  simp only [vecBody, vecSize, List.length_append, writeVarUint_length,
    List.length_flatten, List.map_map]
  congr 1
  exact congrArg List.sum (List.map_congr_left fun a _ => h a)

theorem loc1Body_length (v : Loc1) : (loc1Body v).length = loc1Size v := rfl

theorem loc2Body_length (v : Loc2) : (loc2Body v).length = loc2Size v := rfl

theorem norm1Body_length (v : Norm1) :
    (norm1Body v).length = norm1Size v := rfl

theorem textureUV1Body_length (v : TextureUV1) :
    (textureUV1Body v).length = textureUV1Size v := by
  simp [textureUV1Body, textureUV1Size, writeVarUint_length]

theorem rot1Body_length (v : Rot1) : (rot1Body v).length = rot1Size v := rfl

theorem rot2Body_length (v : Rot2) : (rot2Body v).length = rot2Size v := rfl

theorem transform1Body_length (v : Transform1) :
    (transform1Body v).length = transform1Size v := rfl

theorem thumbBody_length (v : Thumb) : (thumbBody v).length = thumbSize v :=
  rfl

theorem fingerBody_length (v : Finger) :
    (fingerBody v).length = fingerSize v := rfl

theorem headIPD1Record_length (v : HeadIPD1) :
    (headIPD1Record v).length = headIPD1RecordSize v := rfl

theorem object1Body_length (v : Object1) :
    (object1Body v).length = object1BodySize v := by
  cases v with
  | mk id time position rotation scale active parent =>
    cases parent <;>
      (simp [object1Body, object1BodySize, writeVarUint_length,
        loc1Body_length, rot1Body_length, writeUint16, u16be, sizeUint16,
        loc1Size, rot1Size, sizeFloat32, sizeFloat16]
       try omega)

theorem head1Body_length (v : Head1) :
    (head1Body v).length = head1BodySize v := by
  cases v with
  | mk id time location rotation ipd =>
    cases ipd <;>
      (simp [head1Body, head1BodySize, writeVarUint_length,
        loc2Body_length, rot2Body_length, writeUint16, u16be, sizeUint16,
        loc2Size, rot2Size, headIPD1Record_length, headIPD1RecordSize,
        tagSize, sizeFloat16, sizeFloat32, headIPD1Record, tagOctets,
        writeFloat16]
       try omega)

theorem hand1Body_length (v : Hand1) :
    (hand1Body v).length = hand1BodySize v := by
  simp [hand1Body, hand1BodySize, writeVarUint_length, writeBoolean_length,
    loc2Body_length, rot2Body_length, writeUint16, u16be, sizeUint16,
    loc2Size, rot2Size, sizeBoolean, sizeFloat32, sizeFloat16]
  try omega

theorem hand2Body_length (v : Hand2) :
    (hand2Body v).length = hand2BodySize v := by
  simp [hand2Body, hand2BodySize, writeVarUint_length, writeBoolean_length,
    loc2Body_length, rot2Body_length, writeUint16, u16be, sizeUint16,
    loc2Size, rot2Size, sizeBoolean, transform1Body_length, thumbBody_length,
    fingerBody_length, transform1Size, thumbSize, fingerSize,
    transform1Body, thumbBody, fingerBody, writeFloat16, sizeFloat16,
    sizeFloat32]
  try omega

theorem mesh1Body_length (v : Mesh1) :
    (mesh1Body v).length = mesh1BodySize v := by
  simp only [mesh1Body, mesh1BodySize, List.length_append,
    writeVarUint_length,
    vecBody_length loc1Body loc1Size _ loc1Body_length,
    vecBody_length norm1Body norm1Size _ norm1Body_length,
    vecBody_length textureUV1Body textureUV1Size _ textureUV1Body_length,
    vecBody_length writeVarUint sizeVarUint _ writeVarUint_length]

theorem unknownBody_length (v : UnknownObject) :
    (writeBlob v.data).length = sizeBlob v.data := writeBlob_length v.data

theorem rdBytes_zero (b : RBuf) : b.rdBytes 0 = .ok ([], b) := by
  unfold RBuf.rdBytes
  rw [if_pos rfl]

/-- Claim C3: the VarUint encoder emits exactly the size class of the
prefix table, with strict boundaries: 1 octet iff the value is below
2^7, 2 octets iff in [2^7, 2^14), 3 octets iff in [2^14, 2^21),
5 octets iff in [2^21, 2^32), and 9 octets otherwise; and the nine
boundary values of scenario S7 produce octet counts 1 1 2 2 3 3 5 5
9. -/
theorem c3_varuint_size_classes (v : Nat) (h : v < 0x10000000000000000) :
    ((writeVarUint v).length = 1 ↔ v < 0x80) ∧
    ((writeVarUint v).length = 2 ↔ 0x80 ≤ v ∧ v < 0x4000) ∧
    ((writeVarUint v).length = 3 ↔ 0x4000 ≤ v ∧ v < 0x200000) ∧
    ((writeVarUint v).length = 5 ↔ 0x200000 ≤ v ∧ v < 0x100000000) ∧
    ((writeVarUint v).length = 9 ↔ 0x100000000 ≤ v) ∧
    ([0, 127, 128, 16383, 16384, 2097151, 2097152, 4294967295,
        4294967296].map fun x => (writeVarUint x).length) =
      [1, 1, 2, 2, 3, 3, 5, 5, 9] := by
  rw [writeVarUint_length]
  refine ⟨?_, ?_, ?_, ?_, ?_, by decide⟩ <;>
    (unfold sizeVarUint; split_ifs <;> omega)

/-- Claim C3 witness: the theorem instantiated at the boundary value
128. -/
theorem c3_varuint_size_classes_witness :
    ((writeVarUint 128).length = 1 ↔ (128 : Nat) < 0x80) ∧
    ((writeVarUint 128).length = 2 ↔
      (0x80 : Nat) ≤ 128 ∧ (128 : Nat) < 0x4000) ∧
    ((writeVarUint 128).length = 3 ↔
      (0x4000 : Nat) ≤ 128 ∧ (128 : Nat) < 0x200000) ∧
    ((writeVarUint 128).length = 5 ↔
      (0x200000 : Nat) ≤ 128 ∧ (128 : Nat) < 0x100000000) ∧
    ((writeVarUint 128).length = 9 ↔ (0x100000000 : Nat) ≤ 128) ∧
    ([0, 127, 128, 16383, 16384, 2097151, 2097152, 4294967295,
        4294967296].map fun x => (writeVarUint x).length) =
      [1, 1, 2, 2, 3, 3, 5, 5, 9] :=
  c3_varuint_size_classes 128 (by decide)

/-- Claim C4: for every value of each primitive wire type in its
representable range (integer and float values taken as their machine
bit patterns, Byte being the same type as Uint8), deserializing what
the serializer wrote yields the value again, and the octet count
returned by the read equals the count returned by the write. -/
theorem c4_primitive_roundtrip :
    (∀ v < 0x100, readUint8 ⟨writeUint8 v, 0⟩ =
      .ok (v, sizeUint8, ⟨writeUint8 v, 1⟩)) ∧
    (∀ v < 0x10000, readUint16 ⟨writeUint16 v, 0⟩ =
      .ok (v, sizeUint16, ⟨writeUint16 v, 2⟩)) ∧
    (∀ v < 0x100000000, readUint32 ⟨writeUint32 v, 0⟩ =
      .ok (v, sizeUint32, ⟨writeUint32 v, 4⟩)) ∧
    (∀ v < 0x10000000000000000, readUint64 ⟨writeUint64 v, 0⟩ =
      .ok (v, sizeUint64, ⟨writeUint64 v, 8⟩)) ∧
    (∀ v < 0x100, readInt8 ⟨writeInt8 v, 0⟩ =
      .ok (v, sizeInt8, ⟨writeInt8 v, 1⟩)) ∧
    (∀ v < 0x10000, readInt16 ⟨writeInt16 v, 0⟩ =
      .ok (v, sizeInt16, ⟨writeInt16 v, 2⟩)) ∧
    (∀ v < 0x100000000, readInt32 ⟨writeInt32 v, 0⟩ =
      .ok (v, sizeInt32, ⟨writeInt32 v, 4⟩)) ∧
    (∀ v < 0x10000000000000000, readInt64 ⟨writeInt64 v, 0⟩ =
      .ok (v, sizeInt64, ⟨writeInt64 v, 8⟩)) ∧
    (∀ v < 0x10000000000000000, readVarUint ⟨writeVarUint v, 0⟩ =
      .ok (v, sizeVarUint v, ⟨writeVarUint v, sizeVarUint v⟩)) ∧
    (∀ u < 0x10000000000000000, readVarInt ⟨writeVarInt u, 0⟩ =
      .ok (u, sizeVarInt u, ⟨writeVarInt u, sizeVarInt u⟩)) ∧
    (∀ p < 0x100000000, readFloat32 ⟨writeFloat32 p, 0⟩ =
      .ok (p, sizeFloat32, ⟨writeFloat32 p, 4⟩)) ∧
    (∀ p < 0x10000000000000000, readFloat64 ⟨writeFloat64 p, 0⟩ =
      .ok (p, sizeFloat64, ⟨writeFloat64 p, 8⟩)) ∧
    (∀ v : Bool, readBoolean ⟨writeBoolean v, 0⟩ =
      .ok (v, sizeBoolean, ⟨writeBoolean v, 1⟩)) :=
  ⟨fun v h => readUint8_writeUint8 v h,
   fun v h => readUint16_writeUint16 v h,
   fun v h => readUint32_writeUint32 v h,
   fun v h => readUint64_writeUint64 v h,
   fun v h => readUint8_writeUint8 v h,
   fun v h => readUint16_writeUint16 v h,
   fun v h => readUint32_writeUint32 v h,
   fun v h => readUint64_writeUint64 v h,
   fun v h => readVarUint_writeVarUint v h,
   fun u h => readVarInt_writeVarInt u h,
   fun p h => readFloat32_writeFloat32 p h,
   fun p h => readFloat64_writeFloat64 p h,
   fun v => readBoolean_writeBoolean v⟩

/-- Claim C4 witness: the round trips instantiated at concrete
values, among them the VarInt pattern of -3000. -/
theorem c4_primitive_roundtrip_witness :
    readUint8 ⟨writeUint8 7, 0⟩ = .ok (7, sizeUint8, ⟨writeUint8 7, 1⟩) ∧
    readUint64 ⟨writeUint64 0x1122334455667788, 0⟩ =
      .ok (0x1122334455667788, sizeUint64,
           ⟨writeUint64 0x1122334455667788, 8⟩) ∧
    readVarUint ⟨writeVarUint 16384, 0⟩ =
      .ok (16384, sizeVarUint 16384, ⟨writeVarUint 16384, 3⟩) ∧
    readVarInt ⟨writeVarInt 0xfffffffffffff448, 0⟩ =
      .ok (0xfffffffffffff448, sizeVarInt 0xfffffffffffff448,
           ⟨writeVarInt 0xfffffffffffff448, 2⟩) := by
  refine ⟨c4_primitive_roundtrip.1 7 (by decide),
          c4_primitive_roundtrip.2.2.2.1 0x1122334455667788 (by decide),
          ?_, ?_⟩
  · have h := (c4_primitive_roundtrip.2.2.2.2.2.2.2.2.1) 16384 (by decide)
    simpa using h
  · have h := (c4_primitive_roundtrip.2.2.2.2.2.2.2.2.2.1)
      0xfffffffffffff448 (by decide)
    simpa using h

/-- Claim C8: the count a size-only serialize returns equals the
octet count of a real serialize for every primitive and structure,
and every record the encoder emits carries a VarUint body-length
prefix equal to the number of body octets appended after it. -/
theorem c8_size_only_agreement :
    (∀ v : Nat, (writeUint8 v).length = sizeUint8) ∧
    (∀ v : Nat, (writeUint16 v).length = sizeUint16) ∧
    (∀ v : Nat, (writeUint32 v).length = sizeUint32) ∧
    (∀ v : Nat, (writeUint64 v).length = sizeUint64) ∧
    (∀ v : Nat, (writeInt8 v).length = sizeInt8) ∧
    (∀ v : Nat, (writeInt16 v).length = sizeInt16) ∧
    (∀ v : Nat, (writeInt32 v).length = sizeInt32) ∧
    (∀ v : Nat, (writeInt64 v).length = sizeInt64) ∧
    (∀ v : Nat, (writeVarUint v).length = sizeVarUint v) ∧
    (∀ u : Nat, (writeVarInt u).length = sizeVarInt u) ∧
    (∀ p : Nat, (writeFloat16 p).length = sizeFloat16) ∧
    (∀ p : Nat, (writeFloat32 p).length = sizeFloat32) ∧
    (∀ p : Nat, (writeFloat64 p).length = sizeFloat64) ∧
    (∀ v : Bool, (writeBoolean v).length = sizeBoolean) ∧
    (∀ s : List Nat, (writeString s).length = sizeString s) ∧
    (∀ b : List Nat, (writeBlob b).length = sizeBlob b) ∧
    (∀ v : Object1, encodeObject1 v =
      tagOctets .Object1 ++ writeVarUint (object1Body v).length ++
        object1Body v) ∧
    (∀ v : Head1, encodeHead1 v =
      tagOctets .Head1 ++ writeVarUint (head1Body v).length ++
        head1Body v) ∧
    (∀ v : Hand1, encodeHand1 v =
      tagOctets .Hand1 ++ writeVarUint (hand1Body v).length ++
        hand1Body v) ∧
    (∀ v : Hand2, encodeHand2 v =
      tagOctets .Hand2 ++ writeVarUint (hand2Body v).length ++
        hand2Body v) ∧
    (∀ v : Mesh1, encodeMesh1 v =
      tagOctets .Mesh1 ++ writeVarUint (mesh1Body v).length ++
        mesh1Body v) ∧
    (∀ v : HeadIPD1, encodeHeadIPD1 v =
      tagOctets .HeadIPD1 ++ writeVarUint (writeFloat16 v.ipd).length ++
        writeFloat16 v.ipd) ∧
    (∀ v : UnknownObject, encodeUnknownObject v =
      writeVarUint v.tag ++ writeVarUint v.data.length ++ v.data) := by
  refine ⟨fun v => rfl, fun v => rfl, fun v => rfl, fun v => rfl,
          fun v => rfl, fun v => rfl, fun v => rfl, fun v => rfl,
          writeVarUint_length, writeVarInt_length,
          fun p => rfl, fun p => rfl, fun p => rfl,
          writeBoolean_length, writeString_length, writeBlob_length,
          ?_, ?_, ?_, ?_, ?_, ?_, ?_⟩
  · intro v
    rw [object1Body_length]
    rfl
  · intro v
    rw [head1Body_length]
    rfl
  · intro v
    rw [hand1Body_length]
    rfl
  · intro v
    rw [hand2Body_length]
    rfl
  · intro v
    rw [mesh1Body_length]
    rfl
  · intro v
    rfl
  · intro v
    unfold encodeUnknownObject writeBlob
    rw [List.append_assoc]

/-- Claim C10: for every known tag, a record whose declared VarUint
body length is zero is rejected with the decode error before any body
field is read, whatever the encoding shape of the zero; an unknown
tag accepts the zero-length blob body. -/
theorem c10_zero_length_rejected :
    (∀ fuel b n b', readVarUint b = .ok (0, n, b') →
      decodeHead1 fuel b = .error "Invalid object length") ∧
    (∀ b : RBuf, ∀ n b', readVarUint b = .ok (0, n, b') →
      decodeHand1 b = .error "Invalid object length") ∧
    (∀ b : RBuf, ∀ n b', readVarUint b = .ok (0, n, b') →
      decodeHand2 b = .error "Invalid object length") ∧
    (∀ b : RBuf, ∀ n b', readVarUint b = .ok (0, n, b') →
      decodeObject1 b = .error "Invalid object length") ∧
    (∀ b : RBuf, ∀ n b', readVarUint b = .ok (0, n, b') →
      decodeMesh1 b = .error "Invalid object length") ∧
    (∀ b : RBuf, ∀ n b', readVarUint b = .ok (0, n, b') →
      decodeHeadIPD1 b = .error "Invalid object length") ∧
    (∀ raw : Nat, ∀ b n b', readVarUint b = .ok (0, n, b') →
      decodeUnknownObject raw b = .ok (⟨raw, []⟩, n, b')) := by
  refine ⟨?_, ?_, ?_, ?_, ?_, ?_, ?_⟩
  · intro fuel b n b' h
    unfold decodeHead1 decodeHead1Body
    rw [h]
    simp only [ebind_ok]
    rw [if_pos trivial, ethrow, ebind_err]
  · intro b n b' h
    unfold decodeHand1
    rw [h]
    simp only [ebind_ok]
    rw [if_pos trivial, ethrow, ebind_err]
  · intro b n b' h
    unfold decodeHand2
    rw [h]
    simp only [ebind_ok]
    rw [if_pos trivial, ethrow, ebind_err]
  · intro b n b' h
    unfold decodeObject1
    rw [h]
    simp only [ebind_ok]
    rw [if_pos trivial, ethrow, ebind_err]
  · intro b n b' h
    unfold decodeMesh1
    rw [h]
    simp only [ebind_ok]
    rw [if_pos trivial, ethrow, ebind_err]
  · intro b n b' h
    unfold decodeHeadIPD1
    rw [h]
    simp only [ebind_ok]
    rw [if_pos trivial, ethrow, ebind_err]
  · intro raw b n b' h
    unfold decodeUnknownObject readBlob
    rw [h]
    simp only [ebind_ok, rdBytes_zero, List.length_nil, Nat.add_zero, epure]

/-- Claim C10 witness: the theorem applied to a buffer holding the
single octet 0x00 as the declared length. -/
theorem c10_zero_length_rejected_witness :
    decodeHand1 ⟨[0x00, 0x01], 0⟩ = .error "Invalid object length" ∧
    decodeUnknownObject 0x20 ⟨[0x00], 0⟩ =
      .ok (⟨0x20, []⟩, 1, ⟨[0x00], 1⟩) := by
  refine ⟨c10_zero_length_rejected.2.1 ⟨[0x00, 0x01], 0⟩ 1 ⟨[0x00, 0x01], 1⟩
            ?_,
          c10_zero_length_rejected.2.2.2.2.2.2 0x20 ⟨[0x00], 0⟩ 1 ⟨[0x00], 1⟩
            ?_⟩ <;> rfl


/-- C1: the claim (taken from the C-API test vector shape) says the
Object1 wire body holds exactly id, position, rotation, scale and the
optional parent, with no time field, and that the decoder never
consumes a time field.  The code contradicts it on both sides:
Encoder::Encode(Object1) writes the Uint16 time right after the id
(octets 0x05 0x00 of object1SampleWire, body length 0x21 = 33 where
the claimed layout gives 31), and Decoder::Decode(Object1) reads the
time back, consuming all 34 octets of the length-prefixed body. -/
theorem c1_object1_time_on_wire :
    encodeObject1 object1Sample = object1SampleWire ∧
    decodeObject1 ⟨object1SampleWire.drop 1, 0⟩ =
      .ok (object1Sample, 34, ⟨object1SampleWire.drop 1, 34⟩) :=
  ⟨rfl, rfl⟩

/-- C2: the claim says every octet remaining inside the declared body
length B is skipped, so that exactly length-field-size + B octets of
the buffer are consumed.  The code's skip passes
length.value - read_length, short of the remaining count by the
length-field size, to AdvanceReadLength: on the 41-octet Head1 record
head1SkipInput (B = 40, one-octet length field) the decoder reports
read_length 41 yet advances the buffer only to position 40, leaving
the last declared-body octet 0xAA unconsumed; on the 36-octet Object1
record object1SkipInput (B = 35) it reports 36 and stops at 35,
leaving 0xBB unconsumed. -/
theorem c2_declared_length_skip_short :
    decodeHead1 1 ⟨head1SkipInput, 0⟩ =
      .ok (⟨0, 0x0500, ⟨0, 0, 0, 0, 0, 0⟩, ⟨0, 0, 0, 0, 0, 0⟩,
            some ⟨0x40490000⟩⟩, 41, ⟨head1SkipInput, 40⟩) ∧
    head1SkipInput.length = 41 ∧
    decodeObject1 ⟨object1SkipInput, 0⟩ =
      .ok (⟨27, 0, ⟨0, 0, 0⟩, ⟨0, 0, 0⟩, ⟨0, 0, 0⟩, false, some 7⟩,
           36, ⟨object1SkipInput, 35⟩) ∧
    object1SkipInput.length = 36 :=
  ⟨rfl, rfl, rfl, rfl⟩

set_option maxHeartbeats 2000000 in
/-- Round trip of the half-float conversions on a normal half-float
pattern (exponent field 1..30), stated over the sign, exponent and
mantissa fields. -/
theorem halfRoundtrip_normal (s e m : Nat) (hs : s < 2) (he1 : 1 ≤ e)
    (he2 : e ≤ 30) (hm : m < 0x400) :
    FloatToHalfFloat (HalfFloatToFloat (s * 0x8000 + e * 0x400 + m)) =
      s * 0x8000 + e * 0x400 + m := by
  have hinner : HalfFloatToFloat (s * 0x8000 + e * 0x400 + m) =
      s * 0x80000000 + (e + 112) * 0x800000 + m * 0x2000 := by
    simp only [HalfFloatToFloat]
    split_ifs <;> omega
  rw [hinner]
  simp only [FloatToHalfFloat]
  split_ifs <;> omega

set_option maxRecDepth 20000 in
/-- C5: FloatToHalfFloat (HalfFloatToFloat h) = h for every 16-bit
pattern h that is not a NaN other than the canonical quiet one (the
hypothesis hnan: when the exponent field is 31, the mantissa field is
0, infinity, or 0x200, the canonical quiet NaN).  Zeros and subnormals
are checked exhaustively (2048 patterns), normals through
halfRoundtrip_normal, infinities and canonical NaNs directly. -/
theorem c5_halffloat_roundtrip (h : Nat) (hlt : h < 0x10000)
    (hnan : h / 0x400 % 0x20 = 0x1f →
      h % 0x400 = 0 ∨ h % 0x400 = 0x200) :
    FloatToHalfFloat (HalfFloatToFloat h) = h := by
  have key0 : ∀ s : Nat, s < 2 → ∀ k : Nat, k < 4 → ∀ r : Nat, r < 256 →
      FloatToHalfFloat (HalfFloatToFloat (s * 0x8000 + (256 * k + r))) =
        s * 0x8000 + (256 * k + r) := by decide
  rcases Nat.lt_or_ge (h / 0x400 % 0x20) 1 with he | he
  · have h1 : h / 0x8000 * 0x8000 + (256 * (h % 0x8000 / 256) + h % 256) =
        h := by omega
    have h2 := key0 (h / 0x8000) (by omega) (h % 0x8000 / 256) (by omega)
      (h % 256) (by omega)
    rw [h1] at h2
    exact h2
  · rcases Nat.lt_or_ge (h / 0x400 % 0x20) 31 with he2 | he2
    · have h1 : h / 0x8000 * 0x8000 + h / 0x400 % 0x20 * 0x400 + h % 0x400 =
          h := by omega
      have h2 := halfRoundtrip_normal (h / 0x8000) (h / 0x400 % 0x20)
        (h % 0x400) (by omega) he (by omega) (by omega)
      rw [h1] at h2
      exact h2
    · have he31 : h / 0x400 % 0x20 = 0x1f := by omega
      have hd : h = 0x7C00 ∨ h = 0xFC00 ∨ h = 0x7E00 ∨ h = 0xFE00 := by
        rcases hnan he31 with hm | hm <;> omega
      rcases hd with h1 | h1 | h1 | h1 <;> rw [h1] <;> rfl

/-- Witness for C5 at the pattern 0x3C00 (one). -/
theorem c5_halffloat_roundtrip_witness :
    FloatToHalfFloat (HalfFloatToFloat 0x3C00) = 0x3C00 :=
  c5_halffloat_roundtrip 0x3C00 (by decide) (by decide)

/-- C6 counterexample: the binary32 pattern 0x38002001 converts to the
half pattern 0x0200, whose value 0x38000000 is NOT the nearest
representable: the half pattern 0x0201 (value 0x38004000) is strictly
closer in magnitude.  The subnormal-result path of FloatToHalfFloat
truncates instead of rounding to nearest. -/
theorem c6_nearest_counterexample :
    FloatToHalfFloat 0x38002001 = 0x0200 ∧
    HalfFloatToFloat 0x0200 = 0x38000000 ∧
    HalfFloatToFloat 0x0201 = 0x38004000 ∧
    dist (mag32 0x38004000) (mag32 0x38002001) <
      dist (mag32 0x38000000) (mag32 0x38002001) :=
  ⟨rfl, rfl, rfl, by decide⟩

set_option maxHeartbeats 1000000 in
/-- C6 amended: FloatToHalfFloat rounds to nearest (ties upward in
magnitude) only where the result is a normal half-float: there it adds
half an ULP (0x1000) to the 23-bit mantissa and truncates.  Where the
result is subnormal (binary32 exponent field 1..112) it truncates the
magnitude down to the subnormal grid (multiples of 2 ^ 125 in units of
2 ^ -149), so the result is at or below the input magnitude and not
always the nearest value. -/
theorem c6_rounding_amended :
    (∀ s e m : Nat, s < 2 → 113 ≤ e → e ≤ 142 → m < 0x800000 →
      FloatToHalfFloat (s * 0x80000000 + e * 0x800000 + m) =
        s * 0x8000 + (e - 112) * 0x400 + (m + 0x1000) / 0x2000) ∧
    (∀ s e m : Nat, s < 2 → 1 ≤ e → e ≤ 112 → m < 0x800000 →
      FloatToHalfFloat (s * 0x80000000 + e * 0x800000 + m) =
        s * 0x8000 + (0x800000 + m) / 2 ^ (126 - e)) ∧
    (∀ e m : Nat, 1 ≤ e → e ≤ 112 → m < 0x800000 →
      mag16 ((0x800000 + m) / 2 ^ (126 - e)) =
        mag32 (e * 0x800000 + m) / 2 ^ 125 * 2 ^ 125 ∧
      mag16 ((0x800000 + m) / 2 ^ (126 - e)) ≤ mag32 (e * 0x800000 + m)) := by
  refine ⟨?_, ?_, ?_⟩
  · intro s e m hs he1 he2 hm
    simp only [FloatToHalfFloat]
    split_ifs <;> omega
  · intro s e m hs he1 he2 hm
    have hS : (s * 0x80000000 + e * 0x800000 + m) / 0x80000000 % 2 *
        0x8000 = s * 0x8000 := by omega
    have hE : (s * 0x80000000 + e * 0x800000 + m) / 0x800000 % 0x100 =
        e := by omega
    have hM : (s * 0x80000000 + e * 0x800000 + m) % 0x800000 / 0x2000 =
        m / 0x2000 := by omega
    simp only [FloatToHalfFloat]
    rw [hS, hE, hM]
    split_ifs <;> try (exfalso; omega)
    have h1 : m / 0x2000 + 0x400 = (0x800000 + m) / 0x2000 := by omega
    rw [h1, Nat.div_div_eq_div_mul]
    have h2 : (0x2000 : Nat) * 2 ^ (113 - e) = 2 ^ (126 - e) := by
      have h13 : (0x2000 : Nat) = 2 ^ 13 := by norm_num
      rw [h13, ← pow_add]
      congr 1
      omega
    rw [h2]
  · intro e m he1 he2 hm
    have h14 : (2 : Nat) ^ 14 ≤ 2 ^ (126 - e) :=
      Nat.pow_le_pow_right (by norm_num) (by omega)
    have h14v : (2 : Nat) ^ 14 = 16384 := by norm_num
    have hle : (0x800000 + m) / 2 ^ (126 - e) ≤ (0x800000 + m) / 16384 := by
      rw [← h14v]
      exact Nat.div_le_div_left h14 (by positivity)
    have hsplit : (2 : Nat) ^ 125 = 2 ^ (126 - e) * 2 ^ (e - 1) := by
      rw [← pow_add]
      congr 1
      omega
    obtain ⟨q, hqdef⟩ : ∃ q, (0x800000 + m) / 2 ^ (126 - e) = q := ⟨_, rfl⟩
    rw [hqdef] at hle ⊢
    have hq : q < 0x400 := by omega
    have hq0 : q / 0x400 % 0x20 = 0 := by omega
    have hqm : q % 0x400 = q := by omega
    have hE2 : (e * 0x800000 + m) / 0x800000 % 0x100 = e := by omega
    have hM2 : (e * 0x800000 + m) % 0x800000 = m := by omega
    have hdiv : (0x800000 + m) * 2 ^ (e - 1) / 2 ^ 125 = q := by
      rw [hsplit, mul_comm (2 ^ (126 - e)) (2 ^ (e - 1)),
        ← Nat.div_div_eq_div_mul, Nat.mul_div_cancel _ (by positivity),
        hqdef]
    simp only [mag16, mag32]
    rw [hq0, hqm, hE2, hM2]
    rw [if_pos (show (0 : Nat) = 0 from rfl),
      if_neg (show ¬e = 0 by omega)]
    constructor
    · rw [hdiv]
    · calc q * 2 ^ 125
          = (0x800000 + m) * 2 ^ (e - 1) / 2 ^ 125 * 2 ^ 125 := by rw [hdiv]
        _ ≤ (0x800000 + m) * 2 ^ (e - 1) := Nat.div_mul_le_self _ _

/-- Witness for C6 amended: the normal case at 1.0 (0x3F800000, sign
0, exponent 127, mantissa 0) and the subnormal case at sign 1,
exponent 100, mantissa 0. -/
theorem c6_rounding_amended_witness :
    FloatToHalfFloat (0 * 0x80000000 + 127 * 0x800000 + 0) =
      0 * 0x8000 + (127 - 112) * 0x400 + (0 + 0x1000) / 0x2000 ∧
    FloatToHalfFloat (1 * 0x80000000 + 100 * 0x800000 + 0) =
      1 * 0x8000 + (0x800000 + 0) / 2 ^ (126 - 100) :=
  ⟨c6_rounding_amended.1 0 127 0 (by decide) (by decide) (by decide)
      (by decide),
   c6_rounding_amended.2.1 1 100 0 (by decide) (by decide) (by decide)
      (by decide)⟩

/-- C7 counterexample: the claim says no encode path ever appends a
zero tag octet.  Encoder::Encode(UnknownObject) has no zero-tag check:
for the UnknownObject with tag 0 and empty data it appends the two
octets 0x00 0x00 (the zero tag as a VarUint, then the zero blob
length) without raising. -/
theorem c7_zero_tag_counterexample :
    encodeUnknownObject ⟨0, []⟩ = [0x00, 0x00] := rfl

/-- C7 amended: only Encoder::Serialize(Tag) enforces the zero-tag
rule: it raises exactly on the Invalid tag (raw value 0) and writes
the nonzero raw value of every other tag, while
Encoder::Encode(UnknownObject) appends the raw tag unchecked. -/
theorem c7_zero_tag_amended :
    serializeTag .Invalid = .error "Invalid object tag value" ∧
    (∀ t : Tag, t ≠ .Invalid → tagValue t ≠ 0 ∧
      serializeTag t = .ok (writeVarUint (tagValue t))) ∧
    (∀ u : UnknownObject,
      encodeUnknownObject u = writeVarUint u.tag ++ writeBlob u.data) := by
  refine ⟨rfl, ?_, fun u => rfl⟩
  intro t ht
  cases t
  · exact absurd rfl ht
  all_goals exact ⟨by decide, rfl⟩

/-- Witness for C7 amended at the Mesh1 tag. -/
theorem c7_zero_tag_amended_witness :
    tagValue .Mesh1 ≠ 0 ∧
    serializeTag .Mesh1 = .ok (writeVarUint (tagValue .Mesh1)) :=
  c7_zero_tag_amended.2.1 .Mesh1 (by decide)

/-- C9 counterexample: the claim says TakeBufferOwnership zeroes all
three counters.  It leaves read_length untouched: from the state with
buffer_size 4, data_length 4, read_length 2 (which satisfies the
counter invariant) the state after the call has read_length still 2
and data_length 0, breaking read_length ≤ data_length. -/
theorem c9_take_ownership_counterexample :
    DataBufSt.inv ⟨true, 4, 4, 2, [9, 9, 9, 9]⟩ ∧
    (DataBufSt.takeBufferOwnership ⟨true, 4, 4, 2, [9, 9, 9, 9]⟩).2 =
      ⟨false, 0, 0, 2, []⟩ ∧
    ¬ DataBufSt.inv
        (DataBufSt.takeBufferOwnership ⟨true, 4, 4, 2, [9, 9, 9, 9]⟩).2 :=
  ⟨by decide, rfl, by decide⟩

/-- C9 amended: every DataBufferInterface operation except
TakeBufferOwnership preserves the counter invariant
read_length ≤ data_length ≤ buffer_size (GetValue performs no state
change at all); TakeBufferOwnership zeroes buffer_size and
data_length and drops the storage but keeps read_length, so it
preserves the invariant only when read_length was 0. -/
theorem c9_invariant_amended :
    (∀ s : DataBufSt, ∀ v s1, s.inv → s.appendBytes v = .ok s1 → s1.inv) ∧
    (∀ s : DataBufSt, ∀ n l s1, s.inv → s.readBytes n = .ok (l, s1) →
      s1.inv) ∧
    (∀ s : DataBufSt, ∀ off v s1, s.inv → s.setBytes off v = .ok s1 →
      s1.inv) ∧
    (∀ s : DataBufSt, ∀ n s1, s.inv → s.advanceReadLength n = .ok s1 →
      s1.inv) ∧
    (∀ s : DataBufSt, s.inv → s.resetReadLength.inv) ∧
    (∀ s : DataBufSt, ∀ n s1, s.inv → s.setDataLength n = .ok s1 →
      s1.inv) ∧
    (∀ s : DataBufSt,
      (s.takeBufferOwnership).2.bufferSize = 0 ∧
      (s.takeBufferOwnership).2.dataLength = 0 ∧
      (s.takeBufferOwnership).2.hasBuffer = false ∧
      (s.takeBufferOwnership).2.readLength = s.readLength) ∧
    (∀ s : DataBufSt, s.readLength = 0 → (s.takeBufferOwnership).2.inv) := by
  refine ⟨?_, ?_, ?_, ?_, ?_, ?_, fun s => ⟨rfl, rfl, rfl, rfl⟩, ?_⟩
  · intro s v s1 hinv h
    unfold DataBufSt.appendBytes at h
    split_ifs at h with hc
    injection h with h1
    subst h1
    obtain ⟨ha, hb⟩ := hinv
    refine ⟨?_, ?_⟩
    · show s.readLength ≤ s.dataLength + v.length
      omega
    · show s.dataLength + v.length ≤ s.bufferSize
      omega
  · intro s n l s1 hinv h
    unfold DataBufSt.readBytes at h
    obtain ⟨ha, hb⟩ := hinv
    split_ifs at h with hc0 hc
    · injection h with h1
      injection h1 with h2 h3
      subst h3
      exact ⟨ha, hb⟩
    · injection h with h1
      injection h1 with h2 h3
      subst h3
      refine ⟨?_, ?_⟩
      · show s.readLength + n ≤ s.dataLength
        omega
      · show s.dataLength ≤ s.bufferSize
        omega
  · intro s off v s1 hinv h
    unfold DataBufSt.setBytes at h
    split_ifs at h with hc
    injection h with h1
    subst h1
    exact hinv
  · intro s n s1 hinv h
    unfold DataBufSt.advanceReadLength at h
    split_ifs at h with hc
    injection h with h1
    subst h1
    obtain ⟨ha, hb⟩ := hinv
    unfold addSizeT at hc ⊢
    refine ⟨?_, ?_⟩
    · show (s.readLength + n) % 0x10000000000000000 ≤ s.dataLength
      omega
    · show s.dataLength ≤ s.bufferSize
      omega
  · intro s hinv
    obtain ⟨ha, hb⟩ := hinv
    exact ⟨Nat.zero_le _, hb⟩
  · intro s n s1 hinv h
    unfold DataBufSt.setDataLength at h
    split_ifs at h with hc
    injection h with h1
    subst h1
    obtain ⟨ha, hb⟩ := hinv
    refine ⟨?_, ?_⟩
    · show min n s.readLength ≤ n
      omega
    · show n ≤ s.bufferSize
      omega
  · intro s h0
    refine ⟨?_, Nat.le_refl 0⟩
    show s.readLength ≤ 0
    omega

/-- Witness for C9 amended: ReadValue of 2 octets from a 3-octet data
region preserves the invariant, and TakeBufferOwnership from
read_length 0 does. -/
theorem c9_invariant_amended_witness :
    DataBufSt.inv ⟨true, 4, 3, 3, [1, 2, 3, 0]⟩ ∧
    DataBufSt.inv
      (DataBufSt.takeBufferOwnership ⟨true, 8, 5, 0, [1, 2, 3, 4, 5]⟩).2 :=
  ⟨c9_invariant_amended.2.1 ⟨true, 4, 3, 1, [1, 2, 3, 0]⟩ 2 [2, 3]
      ⟨true, 4, 3, 3, [1, 2, 3, 0]⟩ (by decide) rfl,
   c9_invariant_amended.2.2.2.2.2.2.2 ⟨true, 8, 5, 0, [1, 2, 3, 4, 5]⟩ rfl⟩

end GSE
